import Mathlib

/-!
Shallow embedding of the client-side code of the Storyer repository
(`src/static/js/main.js`, `src/unnamed/part_001` — the floating-save-button
script — together with the element structure of `src/templates/index.html`).

The page is modelled as an explicit state (`Page`): an association list of
element ids to their mutable attributes (mirroring `document.getElementById`),
the checked radio of each radio group (mirroring
`document.querySelector('input[name=g]:checked')`), the children of the
`#narrative-history` transcript panel, the list of `alert` dialogs raised,
and a few page-level flags.  JavaScript `TypeError`s raised by dereferencing
a `null` element are modelled by `Except`, with the `Page` at throw time
carried in the error so that the partial mutations made before the throw
survive, exactly as they do in the browser.  Promise chains
`fetch(..).then(h).catch(c).finally(f)` are modelled by `fetchChain`.

Class-selected singleton elements that carry no id in the template are
modelled under stand-in ids, noted where introduced.  Presentational
scrolling (`scrollTop`/`scrollHeight`) and `console` output are not modelled:
no claim mentions them and they touch no state any claim reads.
-/

/-- Mutable attributes of a DOM element, as the handlers read and write them:
`value`, `checked`, `disabled`, `textContent`, `style.display`, `classList`,
the `files` list of a file input (file names), and the `option` values of a
`select` (as rebuilt by `refreshOllamaModels`). -/
structure Elem where
  value : String := ""
  checked : Bool := false
  disabled : Bool := false
  textContent : String := ""
  display : String := ""
  classes : List String := []
  files : List String := []
  options : List String := []
deriving Repr, DecidableEq

/-- One `message-container` child of the `#narrative-history` panel:
a `<strong>speaker:</strong><p>text</p>` pair. -/
structure Message where
  speaker : String
  text : String
deriving Repr, DecidableEq

/-- A parsed JSON response body, with the fields the handlers read:
`success`, `error`, `initial_narrative`, `response`, `models`. -/
structure RespData where
  success : Bool := false
  error : String := ""
  initial_narrative : String := ""
  response : String := ""
  models : List String := []
deriving Repr, DecidableEq

/-- Outcome of one `fetch`: a parsed response, or a network-level /
parse failure rejecting the promise chain with an error value. -/
inductive FetchOutcome where
  | ok (data : RespData)
  | netFailure (msg : String)
deriving Repr, DecidableEq

/-- Association-list lookup keyed by strings (first match wins), the model of
`document.getElementById`. -/
def alookup {α : Type} : List (String × α) → String → Option α
  | [], _ => none
  | (k, v) :: rest, i => if k == i then some v else alookup rest i

/-- Pointwise update of every entry with the given key. -/
def aupdate {α : Type} (f : α → α) (j : String) : List (String × α) → List (String × α)
  | [] => []
  | (k, v) :: rest => (k, if k == j then f v else v) :: aupdate f j rest

theorem alookup_aupdate {α : Type} (l : List (String × α)) (i j : String) (f : α → α) :
    alookup (aupdate f j l) i = if i = j then (alookup l i).map f else alookup l i := by
  induction l with
  | nil => simp [alookup, aupdate]
  | cons kv rest ih =>
    obtain ⟨k, v⟩ := kv
    by_cases hki : k = i
    · by_cases hkj : k = j
      · subst hki; subst hkj
        simp [alookup, aupdate]
      · subst hki
        simp [alookup, aupdate, hkj]
    · by_cases hkj : k = j
      · subst hkj
        simp [alookup, aupdate, hki, ih]
      · simp [alookup, aupdate, hki, hkj, ih]

/-- The whole client-visible page state. -/
structure Page where
  /-- elements by id (`document.getElementById`) -/
  elems : List (String × Elem) := []
  /-- for each radio group name, the value of its checked radio, if any
  (`document.querySelector('input[name=g]:checked')`) -/
  radios : List (String × String) := []
  /-- children of the `#narrative-history` panel -/
  transcript : List Message := []
  /-- `alert(..)` dialogs raised, in order -/
  alerts : List String := []
  /-- `data-section` of the `.nav-item` currently carrying class `active` -/
  navActive : String := ""
  /-- `data-path`s of the `.chat-history-item` entries in the history list -/
  historyItems : List String := []
  /-- whether an `.empty-state` placeholder has been appended to the list -/
  emptyState : Bool := false
  /-- whether `window.location.reload()` has been invoked -/
  reloaded : Bool := false
deriving Repr, DecidableEq

def Page.getElementById (p : Page) (i : String) : Option Elem :=
  alookup p.elems i

def Page.modifyElem (p : Page) (i : String) (f : Elem → Elem) : Page :=
  { p with elems := aupdate f i p.elems }

def Page.alert (p : Page) (s : String) : Page :=
  { p with alerts := p.alerts ++ [s] }

def Page.checkedRadio (p : Page) (g : String) : Option String :=
  alookup p.radios g

/-- An in-flight JavaScript computation: either a result, or a thrown
error (its message, conventionally "TypeError" for null dereference)
together with the page state at throw time. -/
abbrev JsOut (α : Type) : Type := Except (String × Page) α

/-- `document.getElementById(i).style.display = v` — throws on a missing id. -/
def Page.setDisplayE (p : Page) (i v : String) : JsOut Page :=
  match p.getElementById i with
  | none => .error ("TypeError", p)
  | some _ => .ok (p.modifyElem i (fun e => { e with display := v }))

/-- `document.getElementById(i).value` — throws on a missing id. -/
def Page.getValueE (p : Page) (i : String) : JsOut String :=
  match p.getElementById i with
  | none => .error ("TypeError", p)
  | some e => .ok e.value

/-- `document.getElementById(i).checked` — throws on a missing id. -/
def Page.getCheckedE (p : Page) (i : String) : JsOut Bool :=
  match p.getElementById i with
  | none => .error ("TypeError", p)
  | some e => .ok e.checked

/-- `document.querySelector('input[name=g]:checked').value` — throws when no
radio of the group is checked. -/
def Page.checkedRadioValueE (p : Page) (g : String) : JsOut String :=
  match p.checkedRadio g with
  | none => .error ("TypeError", p)
  | some v => .ok v

/-- `document.getElementById(i).textContent = s` — throws on a missing id. -/
def Page.setTextE (p : Page) (i s : String) : JsOut Page :=
  match p.getElementById i with
  | none => .error ("TypeError", p)
  | some _ => .ok (p.modifyElem i (fun e => { e with textContent := s }))

/-- `narrativeHistory.appendChild(container)` for
`narrativeHistory = document.getElementById('narrative-history')` —
throws when the panel is missing. -/
def Page.appendMessageE (p : Page) (m : Message) : JsOut Page :=
  match p.getElementById "narrative-history" with
  | none => .error ("TypeError", p)
  | some _ => .ok { p with transcript := p.transcript ++ [m] }

/-- Semantics of `fetch(..).then(r => r.json()).then(onData).catch(onErr).finally(fin)`:
on a response the data callback runs; a throw inside it falls to the catch
callback; a network failure goes straight to the catch callback; the finally
callback runs in every case, even when the catch callback itself throws
(in which case the error escapes the chain). -/
def fetchChain (p : Page) (onData : Page → RespData → JsOut Page)
    (onErr : Page → String → JsOut Page) (fin : Page → Page)
    (o : FetchOutcome) : JsOut Page :=
  match o with
  | .ok data =>
    match onData p data with
    | .ok p' => .ok (fin p')
    | .error (e, p') =>
      match onErr p' e with
      | .ok p'' => .ok (fin p'')
      | .error (e', p'') => .error (e', fin p'')
  | .netFailure e =>
    match onErr p e with
    | .ok p' => .ok (fin p')
    | .error (e', p') => .error (e', fin p')

/-- The page state after a computation, whether or not an error escaped. -/
def pageOf : JsOut Page → Page
  | .ok p => p
  | .error (_, p) => p

/-- The synchronous phase of a request-triggering handler: either it returned
before dispatching (validation failure, re-entrancy guard), or it dispatched a
request with the given body from the given intermediate page state. -/
inductive PreResult (β : Type) where
  | noRequest (p : Page)
  | request (p : Page) (body : β)
deriving Repr, DecidableEq

/-- Observers for statements. -/
def displayOf (p : Page) (i : String) : Option String :=
  (p.getElementById i).map (·.display)

def disabledOf (p : Page) (i : String) : Option Bool :=
  (p.getElementById i).map (·.disabled)

def labelOf (p : Page) (i : String) : Option String :=
  (p.getElementById i).map (·.textContent)

def valueOf (p : Page) (i : String) : Option String :=
  (p.getElementById i).map (·.value)

def optionsOf (p : Page) (i : String) : Option (List String) :=
  (p.getElementById i).map (·.options)

def hasElemB (p : Page) (i : String) : Bool :=
  (p.getElementById i).isSome

/-- JavaScript `a || d` over an optional string read `e?.value`: `undefined`
and the empty string are both falsy and fall back to the default. -/
def jsOr (s : Option String) (d : String) : String :=
  match s with
  | none => d
  | some v => if v == "" then d else v

/-- JavaScript `name.endsWith(suffix)`. -/
def jsEndsWith (s suffix : String) : Bool :=
  suffix.data.isSuffixOf s.data

-- Basic rewriting lemmas about the page primitives.

theorem getElementById_modifyElem (p : Page) (i j : String) (f : Elem → Elem) :
    (p.modifyElem j f).getElementById i =
      if i = j then (p.getElementById i).map f else p.getElementById i := by
  simp [Page.getElementById, Page.modifyElem, alookup_aupdate]

theorem getElementById_alert (p : Page) (i s : String) :
    (p.alert s).getElementById i = p.getElementById i := rfl

theorem transcript_modifyElem (p : Page) (j : String) (f : Elem → Elem) :
    (p.modifyElem j f).transcript = p.transcript := rfl

theorem transcript_alert (p : Page) (s : String) :
    (p.alert s).transcript = p.transcript := rfl

theorem alerts_modifyElem (p : Page) (j : String) (f : Elem → Elem) :
    (p.modifyElem j f).alerts = p.alerts := rfl

theorem radios_modifyElem (p : Page) (j : String) (f : Elem → Elem) :
    (p.modifyElem j f).radios = p.radios := rfl

theorem radios_alert (p : Page) (s : String) :
    (p.alert s).radios = p.radios := rfl

theorem checkedRadio_modifyElem (p : Page) (g j : String) (f : Elem → Elem) :
    (p.modifyElem j f).checkedRadio g = p.checkedRadio g := rfl

theorem checkedRadio_alert (p : Page) (g s : String) :
    (p.alert s).checkedRadio g = p.checkedRadio g := rfl

/-!
The ClientConfigDraft assembled by the two collectors: the object literal
built up field by field in the `api-config-form` submit handler
(`main.js` 230–279) and in `collectGlobalConfig` (floating-save script
74–140).  A field is `none` exactly when the JavaScript object lacks the
property; `use_online_api` is always present.
-/

structure ConfigDraft where
  use_online_api : Bool
  ollama_api_url : Option String := none
  selected_ollama_model : Option String := none
  online_api_url : Option String := none
  online_api_key : Option String := none
  online_api_model : Option String := none
  analysis_model_name : Option String := none
  analysis_custom_type : Option String := none
  analysis_custom_ollama_model : Option String := none
  analysis_custom_online_model : Option String := none
  writing_model_name : Option String := none
  writing_custom_type : Option String := none
  writing_custom_ollama_model : Option String := none
  writing_custom_online_model : Option String := none
deriving Repr, DecidableEq

/-- `main.js` 230–251: the API-type block of the form-submit collector.
Every element access here is unguarded, so a missing element throws. -/
def formTopConfig (p : Page) : JsOut ConfigDraft := do
  let useOnlineApi ← p.getCheckedE "use-online-api"
  let c : ConfigDraft := { use_online_api := useOnlineApi }
  if !useOnlineApi then
    let url ← p.getValueE "ollama-api-url"
    let c := { c with ollama_api_url := some url }
    match p.getElementById "ollama-model-select" with
    | some e => pure { c with selected_ollama_model := some e.value }
    | none => pure c
  else
    let u ← p.getValueE "online-api-url"
    let k ← p.getValueE "online-api-key"
    let m ← p.getValueE "online-model-name"
    pure { c with online_api_url := some u, online_api_key := some k,
                  online_api_model := some m }

/-- `main.js` 253–265: the analysis-model block of the form-submit collector;
the `:checked` query and the custom-model element accesses are unguarded. -/
def formAnalysisConfig (p : Page) (c : ConfigDraft) : JsOut ConfigDraft := do
  let av ← p.checkedRadioValueE "analysis-model"
  let c := { c with analysis_model_name := some av }
  if av == "custom" then
    let t ← p.checkedRadioValueE "analysis-custom-type"
    let c := { c with analysis_custom_type := some t }
    if t == "ollama" then
      let v ← p.getValueE "analysis-ollama-model-select"
      pure { c with analysis_custom_ollama_model := some v }
    else
      let v ← p.getValueE "analysis-online-model-name"
      pure { c with analysis_custom_online_model := some v }
  else
    pure c

/-- `main.js` 267–279: the writing-model block of the form-submit collector. -/
def formWritingConfig (p : Page) (c : ConfigDraft) : JsOut ConfigDraft := do
  let wv ← p.checkedRadioValueE "writing-model"
  let c := { c with writing_model_name := some wv }
  if wv == "custom" then
    let t ← p.checkedRadioValueE "writing-custom-type"
    let c := { c with writing_custom_type := some t }
    if t == "ollama" then
      let v ← p.getValueE "writing-ollama-model-select"
      pure { c with writing_custom_ollama_model := some v }
    else
      let v ← p.getValueE "writing-online-model-name"
      pure { c with writing_custom_online_model := some v }
  else
    pure c

/-- The configuration object built inline by the `api-config-form` submit
handler, `main.js` 230–279. -/
def collectFormConfig (p : Page) : JsOut ConfigDraft := do
  let c ← formTopConfig p
  let c ← formAnalysisConfig p c
  formWritingConfig p c

/-- Floating-save script 75–97: the API-type block of `collectGlobalConfig`.
All accesses use `?.` with `||` fallbacks, so this part is total. -/
def globalTopConfig (p : Page) : ConfigDraft :=
  let useOnlineApi := ((p.getElementById "use-online-api").map (·.checked)).getD false
  let c : ConfigDraft := { use_online_api := useOnlineApi }
  if !useOnlineApi then
    let url := jsOr ((p.getElementById "ollama-api-url").map (·.value)) "http://127.0.0.1:11434"
    let c := { c with ollama_api_url := some url }
    match p.getElementById "ollama-model-select" with
    | some e => { c with selected_ollama_model := some e.value }
    | none => c
  else
    { c with
      online_api_url := some (jsOr ((p.getElementById "online-api-url").map (·.value)) ""),
      online_api_key := some (jsOr ((p.getElementById "online-api-key").map (·.value)) ""),
      online_api_model := some (jsOr ((p.getElementById "online-model-name").map (·.value)) "") }

/-- Floating-save script 99–117: the analysis-model block of
`collectGlobalConfig`; the radio queries are null-guarded. -/
def globalAnalysisConfig (p : Page) (c : ConfigDraft) : ConfigDraft :=
  match p.checkedRadio "analysis-model" with
  | none => c
  | some av =>
    let c := { c with analysis_model_name := some av }
    if av == "custom" then
      match p.checkedRadio "analysis-custom-type" with
      | none => c
      | some t =>
        let c := { c with analysis_custom_type := some t }
        if t == "ollama" then
          let v := jsOr ((p.getElementById "analysis-ollama-model-select").map (·.value)) ""
          { c with analysis_custom_ollama_model := some v }
        else
          let v := jsOr ((p.getElementById "analysis-online-model-name").map (·.value)) ""
          { c with analysis_custom_online_model := some v }
    else
      c

/-- Floating-save script 119–137: the writing-model block of
`collectGlobalConfig`. -/
def globalWritingConfig (p : Page) (c : ConfigDraft) : ConfigDraft :=
  match p.checkedRadio "writing-model" with
  | none => c
  | some wv =>
    let c := { c with writing_model_name := some wv }
    if wv == "custom" then
      match p.checkedRadio "writing-custom-type" with
      | none => c
      | some t =>
        let c := { c with writing_custom_type := some t }
        if t == "ollama" then
          let v := jsOr ((p.getElementById "writing-ollama-model-select").map (·.value)) ""
          { c with writing_custom_ollama_model := some v }
        else
          let v := jsOr ((p.getElementById "writing-online-model-name").map (·.value)) ""
          { c with writing_custom_online_model := some v }
    else
      c

/-- `collectGlobalConfig`, floating-save script 74–140. -/
def collectGlobalConfig (p : Page) : ConfigDraft :=
  globalWritingConfig p (globalAnalysisConfig p (globalTopConfig p))

/-!  Event handlers.  Each request-triggering handler is split where useful
into a synchronous pre phase (everything before `fetch`, returning
`PreResult`) and the promise-chain continuation, combined via `fetchChain`.
-/

/-- The `if (el) ...` pattern: mutate the element when present, no-op when the
lookup returned `null` and the mutation is guarded in the source. -/
def Page.modifyElemIf (p : Page) (i : String) (f : Elem → Elem) : Page :=
  match p.getElementById i with
  | none => p
  | some _ => p.modifyElem i f

/-- `document.getElementById(i).value = v` — throws on a missing id. -/
def Page.setValueE (p : Page) (i v : String) : JsOut Page :=
  match p.getElementById i with
  | none => .error ("TypeError", p)
  | some _ => .ok (p.modifyElem i (fun e => { e with value := v }))

def prePage {β : Type} : PreResult β → Page
  | .noRequest p => p
  | .request p _ => p

-- element.classList operations (classList is a set of class names)

def addClass (c : String) (e : Elem) : Elem :=
  if e.classes.contains c then e else { e with classes := e.classes ++ [c] }

def removeClass (c : String) (e : Elem) : Elem :=
  { e with classes := e.classes.filter (fun x => x != c) }

def hasClassB (p : Page) (i c : String) : Bool :=
  match p.getElementById i with
  | none => false
  | some e => e.classes.contains c

/-- `refreshOllamaModels`, synchronous prefix (`main.js` 144–157): read the
Ollama URL (unguarded), skip silently when it is empty, otherwise put the
refresh button — when present — into its busy state and dispatch. -/
def refreshModelsPre (p : Page) : JsOut (PreResult String) := do
  let ollamaApiUrl ← p.getValueE "ollama-api-url"
  if ollamaApiUrl == "" then
    pure (.noRequest p)
  else
    let p := p.modifyElemIf "refresh-models-btn"
      (fun e => { e with disabled := true, textContent := "正在获取模型列表..." })
    pure (.request p ollamaApiUrl)

/-- `refreshOllamaModels` response callback (`main.js` 169–201): on success
rebuild the option lists of the two model selects when present; on backend
failure only `console.error` runs. -/
def refreshModelsOnData (p : Page) (data : RespData) : JsOut Page :=
  if data.success then
    let p := p.modifyElemIf "analysis-ollama-model-select"
      (fun e => { e with options := data.models })
    let p := p.modifyElemIf "writing-ollama-model-select"
      (fun e => { e with options := data.models })
    .ok p
  else
    .ok p

/-- `refreshOllamaModels` finally callback (`main.js` 205–211). -/
def refreshModelsFin (p : Page) : Page :=
  p.modifyElemIf "refresh-models-btn"
    (fun e => { e with disabled := false, textContent := "刷新模型列表" })

/-- A click on the refresh-models button (`main.js` 215–217). -/
def refreshModelsRun (p : Page) (o : FetchOutcome) : JsOut Page := do
  match ← refreshModelsPre p with
  | .noRequest p => pure p
  | .request p _ => fetchChain p refreshModelsOnData (fun q _ => .ok q) refreshModelsFin o

/-- The `content-section` ids of `index.html` (the node list captured by
`querySelectorAll('.content-section')` at load). -/
def sectionIds : List String :=
  ["home-section", "chat-section", "api-config-section", "settings-section"]

/-- The `data-section` identifiers of the four sidebar `nav-item`s. -/
def navSections : List String := ["home", "chat", "api-config", "settings"]

/-- `contentSections.forEach(s => s.style.display = 'none')`. -/
def hideSections (p : Page) : Page :=
  sectionIds.foldl (fun q i => q.modifyElem i (fun e => { e with display := "none" })) p

/-- The floating-save script's own nav-item listener (part_001 19–28),
attached only when the button exists. -/
def saveButtonToggle (p : Page) (sectionId : String) : Page :=
  p.modifyElemIf "global-save-button"
    (fun e => { e with display := if sectionId == "api-config" then "flex" else "none" })

/-- One click on the `nav-item` carrying `data-section = sectionId`: the
`main.js` listener (7–26) runs first — activate the item, hide every section,
show `sectionId + "-section"`, and for `api-config` start
`refreshOllamaModels` — then the floating-save listener toggles the save
button.  `request` carries the refresh dispatch still in flight. -/
def navClickCore (p : Page) (sectionId : String) : JsOut (PreResult String) := do
  let p := { p with navActive := sectionId }
  let p := hideSections p
  let p ← p.setDisplayE (sectionId ++ "-section") "block"
  if sectionId == "api-config" then
    match ← refreshModelsPre p with
    | .noRequest p1 => pure (.noRequest (saveButtonToggle p1 sectionId))
    | .request p1 url => pure (.request (saveButtonToggle p1 sectionId) url)
  else
    pure (.noRequest (saveButtonToggle p sectionId))

/-- A nav click together with the settling of the model-refresh request it
may have dispatched (outcome `o`, only consulted for `api-config`). -/
def navClick (p : Page) (sectionId : String) (o : FetchOutcome) : JsOut Page := do
  match ← navClickCore p sectionId with
  | .noRequest p => pure p
  | .request p _ => fetchChain p refreshModelsOnData (fun q _ => .ok q) refreshModelsFin o

/-- The two dashboard model-name displays, `.model-info:nth-child(1)
.model-value` and `:nth-child(2)` — class-selected, modelled under the
stand-in ids `model-value-analysis` / `model-value-writing`; both updates are
null-guarded in the source (`main.js` 293–302, part_001 143–154).  Assigning
a missing JavaScript property to `textContent` renders as "undefined". -/
def updateModelDisplay (p : Page) (c : ConfigDraft) : Page :=
  let p := p.modifyElemIf "model-value-analysis"
    (fun e => { e with textContent := c.analysis_model_name.getD "undefined" })
  p.modifyElemIf "model-value-writing"
    (fun e => { e with textContent := c.writing_model_name.getD "undefined" })

/-- `api-config-form` submit response callback (`main.js` 290–308). -/
def apiConfigOnData (p : Page) (c : ConfigDraft) (data : RespData) : JsOut Page :=
  if data.success then
    .ok ((updateModelDisplay p c).alert "API配置已保存")
  else
    .ok (p.alert ("保存API配置失败: " ++ data.error))

/-- `api-config-form` submit handler (`main.js` 226–313): collect the draft
(throwing on missing elements / unchecked radios), dispatch, no busy state,
no finally. -/
def apiConfigSubmit (p : Page) (o : FetchOutcome) : JsOut Page := do
  let c ← collectFormConfig p
  fetchChain p (fun q d => apiConfigOnData q c d)
    (fun q e => .ok (q.alert ("保存API配置出错: " ++ e))) id o

/-- `test-api-btn` click handler (`main.js` 319–361). -/
def testApiClick (p : Page) (o : FetchOutcome) : JsOut Page := do
  let testMessage ← p.getValueE "test-message"
  if testMessage == "" then
    pure (p.alert "请输入测试消息")
  else
    let p := p.modifyElem "test-api-btn"
      (fun e => { e with disabled := true, textContent := "测试中..." })
    let p ← p.setDisplayE "test-result" "block"
    let p ← p.setTextE "test-result" "正在连接API..."
    fetchChain p
      (fun q d =>
        if d.success then q.setTextE "test-result" ("测试成功！响应: " ++ d.response)
        else q.setTextE "test-result" ("测试失败: " ++ d.error))
      (fun q e => q.setTextE "test-result" ("测试出错: " ++ e))
      (fun q => q.modifyElem "test-api-btn"
        (fun e => { e with disabled := false, textContent := "测试连接" }))
      o

/-- The `/update_settings` request body (`main.js` 397–404); the numeric
fields keep their raw input strings — `parseFloat`/`parseInt` only feed the
serialized body, which no DOM update reads back. -/
structure SettingsBody where
  temperature : String
  top_p : String
  max_tokens : String
  show_typing_animation : Bool
  typing_speed : String
  enable_keyboard_shortcuts : Bool
deriving Repr, DecidableEq

/-- `settings-form` submit, synchronous phase (`main.js` 394–404): six
unguarded element reads, no control is disabled, no busy label is shown. -/
def settingsPre (p : Page) : JsOut (Page × SettingsBody) := do
  let t ← p.getValueE "temperature"
  let tp ← p.getValueE "top-p"
  let mt ← p.getValueE "max-tokens"
  let sta ← p.getCheckedE "show-typing-animation"
  let ts ← p.getValueE "typing-speed"
  let eks ← p.getCheckedE "enable-keyboard-shortcuts"
  pure (p, ⟨t, tp, mt, sta, ts, eks⟩)

/-- `settings-form` submit handler (`main.js` 394–425): on backend failure
the alert is the fixed string `保存设置失败`, without `data.error`. -/
def settingsSubmit (p : Page) (o : FetchOutcome) : JsOut Page := do
  let (p, _) ← settingsPre p
  fetchChain p
    (fun q d => .ok (q.alert (if d.success then "设置已保存" else "保存设置失败")))
    (fun q e => .ok (q.alert ("保存设置出错: " ++ e)))
    id o

/-- `reset-app-btn` click handler (`main.js` 432–451): guarded by `confirm`;
on backend failure the alert is the fixed string `重置应用失败`, without
`data.error`; the button is never disabled. -/
def resetAppClick (p : Page) (confirmed : Bool) (o : FetchOutcome) : JsOut Page :=
  if confirmed then
    fetchChain p
      (fun q d =>
        if d.success then
          let q := q.alert "应用已重置"
          .ok { q with reloaded := true }
        else .ok (q.alert "重置应用失败"))
      (fun q e => .ok (q.alert ("重置应用出错: " ++ e)))
      id o
  else
    .ok p

/-- The multipart body of `/upload_novel`. -/
structure UploadBody where
  novel_file : String
  novel_title : String
deriving Repr, DecidableEq

/-- `novel-upload-form` submit, synchronous phase (`main.js` 457–486): read
the selected file and title, validate (alert and return without any request
on a missing file or a non-`.txt` name), then show the processing card and
dispatch. -/
def novelUploadPre (p : Page) : JsOut (PreResult UploadBody) := do
  let files ←
    match p.getElementById "novel-file" with
    | none => (.error ("TypeError", p) : JsOut (List String))
    | some e => .ok e.files
  let novelTitle ← p.getValueE "novel-title"
  match files.head? with
  | none => pure (.noRequest (p.alert "请选择小说文件"))
  | some name =>
    if jsEndsWith name ".txt" then do
      let p ← p.setDisplayE "processing-card" "flex"
      pure (.request p ⟨name, novelTitle⟩)
    else
      pure (.noRequest (p.alert "只支持TXT格式的文件"))

/-- `novel-upload-form` response callback (`main.js` 488–499). -/
def novelUploadOnData (p : Page) (data : RespData) : JsOut Page := do
  if data.success then do
    let p ← p.setDisplayE "processing-card" "none"
    p.setDisplayE "initializing-narrative-card" "flex"
  else do
    let p ← p.setDisplayE "processing-card" "none"
    pure (p.alert ("处理小说失败: " ++ data.error))

/-- `novel-upload-form` submit handler (`main.js` 457–506). -/
def novelUploadSubmit (p : Page) (o : FetchOutcome) : JsOut Page := do
  match ← novelUploadPre p with
  | .noRequest p => pure p
  | .request p _ =>
    fetchChain p novelUploadOnData
      (fun q e => do
        let q ← q.setDisplayE "processing-card" "none"
        pure (q.alert ("上传小说出错: " ++ e)))
      id o

/-- `start-narrative-btn` response callback (`main.js` 522–544): on success
hide the init card, show the element with id `narrative-card` — an id the
template does not define (its panel is `narrative-view`) — then append the
initial narrative; on backend failure alert and restore the button. -/
def startNarrativeOnData (p : Page) (data : RespData) : JsOut Page := do
  if data.success then do
    let p ← p.setDisplayE "initializing-narrative-card" "none"
    let p ← p.setDisplayE "narrative-card" "flex"
    p.appendMessageE ⟨"系统", data.initial_narrative⟩
  else
    let p := p.alert ("初始化叙事失败: " ++ data.error)
    pure (p.modifyElem "start-narrative-btn"
      (fun e => { e with disabled := false, textContent := "开始旅程" }))

/-- `start-narrative-btn` click handler (`main.js` 512–552): busy the button,
dispatch; the button is restored in the failure branch and in the catch
callback, and there is no finally. -/
def startNarrativePre (p : Page) : Page :=
  p.modifyElem "start-narrative-btn"
    (fun e => { e with disabled := true, textContent := "初始化中..." })

def startNarrativeClick (p : Page) (o : FetchOutcome) : JsOut Page :=
  fetchChain (startNarrativePre p) startNarrativeOnData
    (fun q e =>
      let q := q.alert ("初始化叙事出错: " ++ e)
      .ok (q.modifyElem "start-narrative-btn"
        (fun e2 => { e2 with disabled := false, textContent := "开始旅程" })))
    id o

/-- `send-action-btn` click, synchronous phase (`main.js` 558–592): validate
the input, busy the button, optimistically append the user message to the
transcript, clear the input, dispatch. -/
def sendActionPre (p : Page) : JsOut (PreResult String) := do
  let userAction ← p.getValueE "user-action"
  if userAction == "" then
    pure (.noRequest (p.alert "请输入您的行动"))
  else do
    let p := p.modifyElem "send-action-btn"
      (fun e => { e with disabled := true, textContent := "处理中..." })
    let p ← p.appendMessageE ⟨"用户", userAction⟩
    let p ← p.setValueE "user-action" ""
    pure (.request p userAction)

/-- `send-action-btn` click handler (`main.js` 558–617). -/
def sendActionClick (p : Page) (o : FetchOutcome) : JsOut Page := do
  match ← sendActionPre p with
  | .noRequest p => pure p
  | .request p _ =>
    fetchChain p
      (fun q d =>
        if d.success then q.appendMessageE ⟨"系统", d.response⟩
        else .ok (q.alert ("处理行动失败: " ++ d.error)))
      (fun q e => .ok (q.alert ("处理行动出错: " ++ e)))
      (fun q => q.modifyElem "send-action-btn"
        (fun e => { e with disabled := false, textContent := "发送" }))
      o

/-- `save-game-btn` click handler (`main.js` 623–648). -/
def saveGamePre (p : Page) : Page :=
  p.modifyElem "save-game-btn"
    (fun e => { e with disabled := true, textContent := "保存中..." })

def saveGameClick (p : Page) (o : FetchOutcome) : JsOut Page :=
  fetchChain (saveGamePre p)
    (fun q d => .ok (q.alert (if d.success then "游戏已保存" else "保存游戏失败: " ++ d.error)))
    (fun q e => .ok (q.alert ("保存游戏出错: " ++ e)))
    (fun q => q.modifyElem "save-game-btn"
      (fun e => { e with disabled := false, textContent := "保存游戏" }))
    o

/-- `close-narrative-btn` click handler (`main.js` 655–659): another
reference to the undefined id `narrative-card`. -/
def closeNarrativeClick (p : Page) : JsOut Page :=
  p.setDisplayE "narrative-card" "none"

/-- A `load-chat-btn` click (`main.js` 663–706); the clicked per-item button
is modelled under the stand-in id `load-chat-btn`, and `filePath` is its
`data-path` attribute ("" for a missing attribute).  On success the handler
synthesizes a click on the home nav item (whose refresh branch cannot fire)
and shows the init card. -/
def loadHistoryPre (p : Page) (filePath : String) : PreResult String :=
  if filePath == "" then
    .noRequest (p.alert "历史对话文件路径无效")
  else
    .request (p.modifyElem "load-chat-btn"
      (fun e => { e with disabled := true, textContent := "加载中..." })) filePath

def loadHistoryClick (p : Page) (filePath : String) (o : FetchOutcome) : JsOut Page :=
  match loadHistoryPre p filePath with
  | .noRequest p => .ok p
  | .request p _ =>
    fetchChain p
      (fun q d =>
        if d.success then do
          let r ← navClickCore q "home"
          (prePage r).setDisplayE "initializing-narrative-card" "flex"
        else .ok (q.alert ("加载历史对话失败: " ++ d.error)))
      (fun q e => .ok (q.alert ("加载历史对话出错: " ++ e)))
      (fun q => q.modifyElem "load-chat-btn"
        (fun e => { e with disabled := false, textContent := "加载" }))
      o

/-- `delete-chat-btn` response callback (`main.js` 734–752): on success remove
the clicked `.chat-history-item` (when the clicked button still sits in one)
and, when no items remain, append the empty-state placeholder to
`.chat-history-list` (stand-in id `chat-history-list`, unguarded). -/
def deleteHistoryOnData (p : Page) (filePath : String) (data : RespData) : JsOut Page :=
  if data.success then
    let p :=
      if p.historyItems.contains filePath then
        { p with historyItems := p.historyItems.erase filePath }
      else p
    if p.historyItems.length == 0 then
      match p.getElementById "chat-history-list" with
      | none => .error ("TypeError", p)
      | some _ => .ok { p with emptyState := true }
    else .ok p
  else
    .ok (p.alert ("删除历史对话失败: " ++ data.error))

/-- A `delete-chat-btn` click (`main.js` 710–763), guarded by `confirm`;
the clicked per-item button is modelled under the stand-in id
`delete-chat-btn`. -/
def deleteHistoryPre (p : Page) (filePath : String) (confirmed : Bool) : PreResult String :=
  if filePath == "" then
    .noRequest (p.alert "历史对话文件路径无效")
  else if confirmed then
    .request (p.modifyElem "delete-chat-btn"
      (fun e => { e with disabled := true, textContent := "删除中..." })) filePath
  else
    .noRequest p

def deleteHistoryClick (p : Page) (filePath : String) (confirmed : Bool)
    (o : FetchOutcome) : JsOut Page :=
  match deleteHistoryPre p filePath confirmed with
  | .noRequest p => .ok p
  | .request p fp =>
    fetchChain p (fun q d => deleteHistoryOnData q fp d)
      (fun q e => .ok (q.alert ("删除历史对话出错: " ++ e)))
      (fun q => q.modifyElem "delete-chat-btn"
        (fun e => { e with disabled := false, textContent := "删除" }))
      o

/-- `showSaveToast` (part_001 157–164): unguarded `classList.add` on the
toast; the three-second timed removal is a timer and is not modelled. -/
def showSaveToast (p : Page) : JsOut Page :=
  match p.getElementById "save-toast" with
  | none => .error ("TypeError", p)
  | some _ => .ok (p.modifyElem "save-toast" (addClass "show"))

/-- Floating save button click, synchronous phase (part_001 31–41): no-op
when the listener was never attached or the button is already `saving`;
otherwise enter the saving state and collect the draft. -/
def globalSavePre (p : Page) : PreResult ConfigDraft :=
  match p.getElementById "global-save-button" with
  | none => .noRequest p
  | some e =>
    if e.classes.contains "saving" then .noRequest p
    else
      let p := p.modifyElem "global-save-button" (addClass "saving")
      .request p (collectGlobalConfig p)

/-- Floating save response callback (part_001 52–61). -/
def globalSaveOnData (p : Page) (c : ConfigDraft) (data : RespData) : JsOut Page :=
  if data.success then
    showSaveToast (updateModelDisplay p c)
  else
    .ok (p.alert ("保存全局设置失败: " ++ data.error))

/-- Floating save button click handler (part_001 31–70): the finally callback
leaves the saving state unconditionally. -/
def globalSaveClick (p : Page) (o : FetchOutcome) : JsOut Page :=
  match globalSavePre p with
  | .noRequest p => .ok p
  | .request p c =>
    fetchChain p (fun q d => globalSaveOnData q c d)
      (fun q e => .ok (q.alert ("保存全局设置出错: " ++ e)))
      (fun q => q.modifyElem "global-save-button" (removeClass "saving"))
      o

/-!  Frame lemmas for symbolic execution of the handlers. -/

theorem hasElemB_modifyElem (p : Page) (i j : String) (f : Elem → Elem) :
    hasElemB (p.modifyElem j f) i = hasElemB p i := by
  unfold hasElemB
  rw [getElementById_modifyElem]
  by_cases h : i = j <;> simp [h]

theorem hasElemB_alert (p : Page) (i s : String) :
    hasElemB (p.alert s) i = hasElemB p i := rfl

theorem modifyElemIf_eq (p : Page) (j : String) (f : Elem → Elem) :
    p.modifyElemIf j f = if hasElemB p j then p.modifyElem j f else p := by
  unfold Page.modifyElemIf hasElemB
  cases p.getElementById j <;> simp

theorem displayOf_modifyElem_ne (p : Page) (i j : String) (f : Elem → Elem)
    (h : i ≠ j) : displayOf (p.modifyElem j f) i = displayOf p i := by
  simp [displayOf, getElementById_modifyElem, h]

theorem displayOf_modifyElem_self (p : Page) (i : String) (f : Elem → Elem) :
    displayOf (p.modifyElem i f) i = (p.getElementById i).map (fun e => (f e).display) := by
  simp [displayOf, getElementById_modifyElem, Option.map_map]
  rfl

theorem displayOf_modifyElem_pres (p : Page) (i j : String) (f : Elem → Elem)
    (h : ∀ e, (f e).display = e.display) :
    displayOf (p.modifyElem j f) i = displayOf p i := by
  by_cases hij : i = j
  · subst hij
    rw [displayOf_modifyElem_self]
    unfold displayOf
    cases p.getElementById i <;> simp [h]
  · exact displayOf_modifyElem_ne p i j f hij

theorem displayOf_alert (p : Page) (i s : String) :
    displayOf (p.alert s) i = displayOf p i := rfl

theorem disabledOf_modifyElem_ne (p : Page) (i j : String) (f : Elem → Elem)
    (h : i ≠ j) : disabledOf (p.modifyElem j f) i = disabledOf p i := by
  simp [disabledOf, getElementById_modifyElem, h]

theorem disabledOf_modifyElem_self (p : Page) (i : String) (f : Elem → Elem) :
    disabledOf (p.modifyElem i f) i = (p.getElementById i).map (fun e => (f e).disabled) := by
  simp [disabledOf, getElementById_modifyElem, Option.map_map]
  rfl

theorem disabledOf_alert (p : Page) (i s : String) :
    disabledOf (p.alert s) i = disabledOf p i := rfl

theorem labelOf_modifyElem_ne (p : Page) (i j : String) (f : Elem → Elem)
    (h : i ≠ j) : labelOf (p.modifyElem j f) i = labelOf p i := by
  simp [labelOf, getElementById_modifyElem, h]

theorem labelOf_modifyElem_self (p : Page) (i : String) (f : Elem → Elem) :
    labelOf (p.modifyElem i f) i = (p.getElementById i).map (fun e => (f e).textContent) := by
  simp [labelOf, getElementById_modifyElem, Option.map_map]
  rfl

theorem labelOf_alert (p : Page) (i s : String) :
    labelOf (p.alert s) i = labelOf p i := rfl

theorem valueOf_modifyElem_ne (p : Page) (i j : String) (f : Elem → Elem)
    (h : i ≠ j) : valueOf (p.modifyElem j f) i = valueOf p i := by
  simp [valueOf, getElementById_modifyElem, h]

theorem valueOf_modifyElem_self (p : Page) (i : String) (f : Elem → Elem) :
    valueOf (p.modifyElem i f) i = (p.getElementById i).map (fun e => (f e).value) := by
  simp [valueOf, getElementById_modifyElem, Option.map_map]
  rfl

theorem valueOf_alert (p : Page) (i s : String) :
    valueOf (p.alert s) i = valueOf p i := rfl

/-!
Concrete page states rendered from `index.html`.

`templateElems` lists every element id the template defines (plus the
stand-in ids introduced above for its class-selected singletons), with the
attribute values the template renders for a fresh session: stage `idle`,
local Ollama API selected, both model choices `llama3`, default generation
settings.  The ids `narrative-card`, `ollama-model-select` and
`online-model-name`, which `main.js` references, appear nowhere in the
template and so are absent here.
-/

def templateElems : List (String × Elem) :=
  [ ("home-section", { display := "" }),
    ("chat-section", { display := "none" }),
    ("api-config-section", { display := "none" }),
    ("settings-section", { display := "none" }),
    ("dashboard-view", { display := "block" }),
    ("narrative-view", { display := "none" }),
    ("narrative-history", { }),
    ("user-action", { value := "" }),
    ("send-action-btn", { textContent := "发送" }),
    ("save-game-btn", { textContent := "保存游戏" }),
    ("close-narrative-btn", { textContent := "返回主页" }),
    ("processing-card", { display := "none" }),
    ("analysis-progress", { }),
    ("analysis-status", { textContent := "准备分析..." }),
    ("initializing-narrative-card", { display := "none" }),
    ("start-narrative-btn", { textContent := "开始旅程" }),
    ("novel-file", { files := [] }),
    ("novel-title", { value := "" }),
    ("file-name-display", { textContent := "未选择文件" }),
    ("use-local-api", { checked := true }),
    ("use-online-api", { checked := false }),
    ("ollama-api-config", { display := "block" }),
    ("online-api-config", { display := "none" }),
    ("ollama-api-url", { value := "http://127.0.0.1:11434" }),
    ("online-api-url", { value := "" }),
    ("online-api-key", { value := "" }),
    ("analysis-custom-settings", { display := "none" }),
    ("analysis-custom-ollama-settings", { display := "none" }),
    ("analysis-custom-online-settings", { display := "none" }),
    ("analysis-ollama-model-select", { value := "llama3", options := ["llama3"] }),
    ("analysis-online-model-name", { value := "" }),
    ("writing-custom-settings", { display := "none" }),
    ("writing-custom-ollama-settings", { display := "none" }),
    ("writing-custom-online-settings", { display := "none" }),
    ("writing-ollama-model-select", { value := "llama3", options := ["llama3"] }),
    ("writing-online-model-name", { value := "" }),
    ("refresh-models-btn", { textContent := "刷新模型列表" }),
    ("refresh-models-status", { display := "none" }),
    ("test-message", { value := "" }),
    ("test-api-btn", { textContent := "测试连接" }),
    ("test-result", { display := "none" }),
    ("temperature", { value := "0.7" }),
    ("temperature-value", { textContent := "0.7" }),
    ("top-p", { value := "0.9" }),
    ("top-p-value", { textContent := "0.9" }),
    ("max-tokens", { value := "2048" }),
    ("show-typing-animation", { checked := true }),
    ("typing-speed", { value := "5" }),
    ("typing-speed-value", { textContent := "5" }),
    ("enable-keyboard-shortcuts", { checked := true }),
    ("reset-app-btn", { textContent := "重置应用" }),
    ("global-save-button", { display := "none" }),
    ("save-toast", { }),
    ("model-value-analysis", { textContent := "llama3" }),
    ("model-value-writing", { textContent := "llama3" }),
    ("load-chat-btn", { textContent := "加载" }),
    ("delete-chat-btn", { textContent := "删除" }),
    ("chat-history-list", { }) ]

/-- A freshly served page: stage `idle`, home section active, local API, both
model radios on `llama3`, no custom-type radio checked (the template checks
one only when the server state sets a custom type). -/
def templatePage : Page :=
  { elems := templateElems,
    radios := [("api-type", "local"), ("analysis-model", "llama3"),
               ("writing-model", "llama3")],
    transcript := [],
    alerts := [],
    navActive := "home",
    historyItems := [],
    emptyState := false,
    reloaded := false }

/-- The page at stage `initializing_narrative` (served after a finished
upload): the init card is visible and everything else is as served. -/
def initStagePage : Page :=
  { templatePage with
      elems := aupdate (fun e => { e with display := "flex" })
        "initializing-narrative-card" templateElems }

/-- The page at stage `narrating`, with a pending user action typed into the
input field. -/
def narratingPage : Page :=
  { templatePage with
      elems :=
        aupdate (fun e => { e with value := "调查房间" }) "user-action"
          (aupdate (fun e => { e with display := "none" }) "dashboard-view"
            (aupdate (fun e => { e with display := "block" }) "narrative-view"
              templateElems)) }

/-- The template page with the online-API radio checked instead of the local
one (the state after the user toggles the API type). -/
def onlineApiPage : Page :=
  { templatePage with
      elems :=
        aupdate (fun e => { e with checked := true }) "use-online-api"
          (aupdate (fun e => { e with checked := false }) "use-local-api"
            templateElems),
      radios := [("api-type", "online"), ("analysis-model", "llama3"),
                 ("writing-model", "llama3")] }

/-!  Claim C1. -/

/-- **C1** — evaluation at the failing input.  On the page served at stage
`initializing_narrative` and a successful `/start_narrative` response with
`initial_narrative = "欢迎"`, the click handler hides the init card but then
dereferences `document.getElementById('narrative-card')` — an id `index.html`
never defines (its narrative panel is `narrative-view`) — so a TypeError
aborts the success callback: no `(系统, 欢迎)` entry is appended, the
narrative panel stays hidden, and the generic catch alert fires while the
button is restored. -/
theorem c1_start_narrative_narrative_card_bug :
    (pageOf (startNarrativeClick initStagePage
      (.ok { success := true, initial_narrative := "欢迎" }))).transcript = [] ∧
    displayOf (pageOf (startNarrativeClick initStagePage
      (.ok { success := true, initial_narrative := "欢迎" }))) "narrative-view" = some "none" ∧
    displayOf (pageOf (startNarrativeClick initStagePage
      (.ok { success := true, initial_narrative := "欢迎" }))) "initializing-narrative-card"
      = some "none" ∧
    (pageOf (startNarrativeClick initStagePage
      (.ok { success := true, initial_narrative := "欢迎" }))).alerts
      = ["初始化叙事出错: TypeError"] ∧
    hasElemB initStagePage "narrative-card" = false ∧
    hasElemB initStagePage "narrative-view" = true :=
  ⟨rfl, rfl, rfl, rfl, rfl, rfl⟩

/-!  Claim C10. -/

/-- **C10** (confirmed): the novel-upload submit handler dispatches an
`/upload_novel` request exactly when a file is selected and its name ends in
`.txt`; on a missing file or a non-`.txt` name it only raises the matching
alert, issues no request, and the processing card keeps its display (so it
stays hidden when it was hidden). -/
theorem c10_upload_validation (p : Page) (fEl tEl cEl : Elem)
    (hf : p.getElementById "novel-file" = some fEl)
    (ht : p.getElementById "novel-title" = some tEl)
    (hc : p.getElementById "processing-card" = some cEl) :
    (fEl.files.head? = none →
      novelUploadPre p = .ok (.noRequest (p.alert "请选择小说文件")) ∧
      displayOf (p.alert "请选择小说文件") "processing-card" = some cEl.display) ∧
    (∀ name, fEl.files.head? = some name → jsEndsWith name ".txt" = false →
      novelUploadPre p = .ok (.noRequest (p.alert "只支持TXT格式的文件")) ∧
      displayOf (p.alert "只支持TXT格式的文件") "processing-card" = some cEl.display) ∧
    (∀ name, fEl.files.head? = some name → jsEndsWith name ".txt" = true →
      novelUploadPre p = .ok (.request
        (p.modifyElem "processing-card" (fun e => { e with display := "flex" }))
        ⟨name, tEl.value⟩)) := by
  refine ⟨?_, ?_, ?_⟩
  · intro h
    refine ⟨?_, ?_⟩
    · simp [novelUploadPre, hf, ht, Page.getValueE, h, bind, Except.bind, pure, Except.pure]
    · rw [displayOf_alert]
      simp [displayOf, hc]
  · intro name hn htxt
    refine ⟨?_, ?_⟩
    · simp [novelUploadPre, hf, ht, Page.getValueE, hn, htxt, bind, Except.bind, pure, Except.pure]
    · rw [displayOf_alert]
      simp [displayOf, hc]
  · intro name hn htxt
    simp [novelUploadPre, hf, ht, Page.getValueE, hn, htxt, Page.setDisplayE, hc,
      bind, Except.bind, pure, Except.pure]

/-- Witness for `c10_upload_validation` at the freshly served page (no file
selected): the handler raises the file-missing alert and issues no request. -/
theorem c10_upload_validation_witness :
    novelUploadPre templatePage = .ok (.noRequest (templatePage.alert "请选择小说文件")) :=
  ((c10_upload_validation templatePage { files := [] } { value := "" }
      { display := "none" } rfl rfl rfl).1 rfl).1

/-!  Claim C9. -/

/-- Every settled promise chain ends in its finally callback. -/
theorem pageOf_fetchChain (p : Page) (onData : Page → RespData → JsOut Page)
    (onErr : Page → String → JsOut Page) (fin : Page → Page) (o : FetchOutcome) :
    ∃ q, pageOf (fetchChain p onData onErr fin o) = fin q := by
  unfold fetchChain
  match o with
  | .ok data =>
    match h1 : onData p data with
    | .ok p' => exact ⟨p', by simp [h1, pageOf]⟩
    | .error (e, p') =>
      match h2 : onErr p' e with
      | .ok p'' => exact ⟨p'', by simp [h1, h2, pageOf]⟩
      | .error (e', p'') => exact ⟨p'', by simp [h1, h2, pageOf]⟩
  | .netFailure e =>
    match h2 : onErr p e with
    | .ok p' => exact ⟨p', by simp [h2, pageOf]⟩
    | .error (e', p') => exact ⟨p', by simp [h2, pageOf]⟩

theorem hasClassB_modifyElem_removeClass (p : Page) (i c : String) :
    hasClassB (p.modifyElem i (removeClass c)) i c = false := by
  unfold hasClassB
  rw [getElementById_modifyElem]
  simp only [if_pos rfl]
  cases h : p.getElementById i with
  | none => simp
  | some e =>
    simp [removeClass, List.mem_filter]

/-- **C9** (confirmed): the floating save control is a two-state machine.
A click while the button carries the `saving` class returns before
collecting or dispatching anything and changes nothing; and whenever a click
did dispatch (`globalSavePre` entered the saving state), the settled handler
has dropped the `saving` class again for every outcome — response success,
backend failure, and network failure alike, since the finally callback
removes it even when the success callback throws. -/
theorem c9_floating_save_two_state (p p' : Page) (c : ConfigDraft) (o : FetchOutcome) :
    (hasClassB p "global-save-button" "saving" = true →
      globalSavePre p = .noRequest p) ∧
    (globalSavePre p = .request p' c →
      hasClassB (pageOf (globalSaveClick p o)) "global-save-button" "saving" = false) := by
  constructor
  · intro h
    unfold hasClassB at h
    unfold globalSavePre
    cases he : p.getElementById "global-save-button" with
    | none => rfl
    | some e =>
      rw [he] at h
      simp at h
      simp [h]
  · intro h
    unfold globalSaveClick
    rw [h]
    obtain ⟨q, hq⟩ := pageOf_fetchChain p' (fun q d => globalSaveOnData q c d)
      (fun q e => .ok (q.alert ("保存全局设置出错: " ++ e)))
      (fun q => q.modifyElem "global-save-button" (removeClass "saving")) o
    rw [hq]
    exact hasClassB_modifyElem_removeClass q "global-save-button" "saving"

/-- The template page while a floating save is in flight. -/
def savingPage : Page :=
  templatePage.modifyElem "global-save-button" (addClass "saving")

/-- Witness for `c9_floating_save_two_state`: a second click during an
in-flight save is a no-op, and a click whose request then fails at network
level still leaves the idle state. -/
theorem c9_floating_save_two_state_witness :
    globalSavePre savingPage = .noRequest savingPage ∧
    hasClassB (pageOf (globalSaveClick templatePage (.netFailure "fetch rejected")))
      "global-save-button" "saving" = false :=
  ⟨(c9_floating_save_two_state savingPage savingPage
      { use_online_api := false } (.netFailure "fetch rejected")).1 rfl,
   (c9_floating_save_two_state templatePage savingPage
      (collectGlobalConfig savingPage) (.netFailure "fetch rejected")).2 rfl⟩

/-!  Claims C7 and C8: navigation. -/

theorem displayOf_modifyElemIf_ne (p : Page) (i j : String) (f : Elem → Elem)
    (h : i ≠ j) : displayOf (p.modifyElemIf j f) i = displayOf p i := by
  rw [modifyElemIf_eq]
  split
  · exact displayOf_modifyElem_ne p i j f h
  · rfl

theorem displayOf_modifyElemIf_pres (p : Page) (i j : String) (f : Elem → Elem)
    (h : ∀ e, (f e).display = e.display) :
    displayOf (p.modifyElemIf j f) i = displayOf p i := by
  rw [modifyElemIf_eq]
  split
  · exact displayOf_modifyElem_pres p i j f h
  · rfl

theorem hasElemB_modifyElemIf (p : Page) (i j : String) (f : Elem → Elem) :
    hasElemB (p.modifyElemIf j f) i = hasElemB p i := by
  rw [modifyElemIf_eq]
  split
  · exact hasElemB_modifyElem p i j f
  · rfl

theorem displayOf_setDisplay (p : Page) (i v : String) (h : hasElemB p i = true) :
    displayOf (p.modifyElem i (fun e => { e with display := v })) i = some v := by
  rw [displayOf_modifyElem_self]
  unfold hasElemB at h
  cases hx : p.getElementById i with
  | none => rw [hx] at h; simp at h
  | some e => simp

theorem setDisplayE_of_has (p : Page) (i v : String) (h : hasElemB p i = true) :
    p.setDisplayE i v = .ok (p.modifyElem i (fun e => { e with display := v })) := by
  unfold Page.setDisplayE
  unfold hasElemB at h
  cases hx : p.getElementById i with
  | none => rw [hx] at h; simp at h
  | some e => simp

theorem hasElemB_hideSections (p : Page) (i : String) :
    hasElemB (hideSections p) i = hasElemB p i := by
  simp only [hideSections, sectionIds, List.foldl_cons, List.foldl_nil]
  simp [hasElemB_modifyElem]

theorem displayOf_hideSections (p : Page) (i : String) (hi : i ∈ sectionIds)
    (h : hasElemB p i = true) : displayOf (hideSections p) i = some "none" := by
  unfold hasElemB at h
  fin_cases hi <;>
    simp_all [hideSections, sectionIds, List.foldl_cons, List.foldl_nil,
      displayOf, getElementById_modifyElem, Option.isSome_iff_exists]

theorem displayOf_hideSections_not_mem (p : Page) (i : String) (hi : i ∉ sectionIds) :
    displayOf (hideSections p) i = displayOf p i := by
  simp only [sectionIds, List.mem_cons, not_or] at hi
  obtain ⟨h1, h2, h3, h4, -⟩ := hi
  simp only [hideSections, sectionIds, List.foldl_cons, List.foldl_nil]
  rw [displayOf_modifyElem_ne _ _ _ _ h4, displayOf_modifyElem_ne _ _ _ _ h3,
    displayOf_modifyElem_ne _ _ _ _ h2, displayOf_modifyElem_ne _ _ _ _ h1]

theorem refreshModelsOnData_ok (p : Page) (d : RespData) :
    ∃ q, refreshModelsOnData p d = .ok q ∧ ∀ i, displayOf q i = displayOf p i := by
  unfold refreshModelsOnData
  by_cases h : d.success
  · refine ⟨(p.modifyElemIf "analysis-ollama-model-select"
        (fun e => { e with options := d.models })).modifyElemIf
        "writing-ollama-model-select" (fun e => { e with options := d.models }),
      by simp [h], ?_⟩
    intro i
    exact (displayOf_modifyElemIf_pres _ i "writing-ollama-model-select"
        (fun e => { e with options := d.models }) (fun e => rfl)).trans
      (displayOf_modifyElemIf_pres p i "analysis-ollama-model-select"
        (fun e => { e with options := d.models }) (fun e => rfl))
  · exact ⟨p, by simp [h], fun i => rfl⟩

theorem displayOf_refreshModelsFin (p : Page) (i : String) :
    displayOf (refreshModelsFin p) i = displayOf p i := by
  unfold refreshModelsFin
  exact displayOf_modifyElemIf_pres p i "refresh-models-btn"
    (fun e => { e with disabled := false, textContent := "刷新模型列表" }) (fun e => rfl)

theorem refreshChain_ok (p : Page) (o : FetchOutcome) :
    ∃ q, fetchChain p refreshModelsOnData (fun q _ => .ok q) refreshModelsFin o = .ok q ∧
      ∀ i, displayOf q i = displayOf p i := by
  cases o with
  | ok d =>
    obtain ⟨q, hq, hdisp⟩ := refreshModelsOnData_ok p d
    refine ⟨refreshModelsFin q, by simp [fetchChain, hq], ?_⟩
    intro i
    rw [displayOf_refreshModelsFin, hdisp]
  | netFailure e =>
    refine ⟨refreshModelsFin p, by simp [fetchChain], ?_⟩
    intro i
    rw [displayOf_refreshModelsFin]

theorem refreshModelsPre_skip (p : Page) (e : Elem)
    (h : p.getElementById "ollama-api-url" = some e) (hv : e.value = "") :
    refreshModelsPre p = .ok (.noRequest p) := by
  simp [refreshModelsPre, Page.getValueE, h, hv, bind, Except.bind, pure, Except.pure]

theorem refreshModelsPre_dispatch (p : Page) (e : Elem)
    (h : p.getElementById "ollama-api-url" = some e) (hv : e.value ≠ "") :
    refreshModelsPre p = .ok (.request
      (p.modifyElemIf "refresh-models-btn"
        (fun e2 => { e2 with disabled := true, textContent := "正在获取模型列表..." }))
      e.value) := by
  simp [refreshModelsPre, Page.getValueE, h, hv, bind, Except.bind, pure, Except.pure]

/-- `refreshModelsPre` never changes any display. -/
theorem displayOf_refreshModelsPre (p : Page) (r : PreResult String) (i : String)
    (h : refreshModelsPre p = .ok r) : displayOf (prePage r) i = displayOf p i := by
  unfold refreshModelsPre at h
  cases hx : p.getValueE "ollama-api-url" with
  | error ep => rw [hx] at h; simp [bind, Except.bind] at h
  | ok v =>
    rw [hx] at h
    simp only [bind, Except.bind] at h
    by_cases hv : v == ""
    · simp [hv, pure, Except.pure] at h
      subst h
      rfl
    · simp [hv, pure, Except.pure] at h
      subst h
      exact displayOf_modifyElemIf_pres p i "refresh-models-btn"
        (fun e => { e with disabled := true, textContent := "正在获取模型列表..." }) (fun e => rfl)

theorem displayOf_saveButtonToggle (p : Page) (s i : String) :
    displayOf (saveButtonToggle p s) i =
      if i = "global-save-button" ∧ hasElemB p "global-save-button" = true
      then some (if s == "api-config" then "flex" else "none")
      else displayOf p i := by
  unfold saveButtonToggle
  rw [modifyElemIf_eq]
  by_cases hb : hasElemB p "global-save-button" = true
  · rw [if_pos hb]
    by_cases hi : i = "global-save-button"
    · subst hi
      rw [displayOf_modifyElem_self]
      unfold hasElemB at hb
      cases hx : p.getElementById "global-save-button" with
      | none => rw [hx] at hb; simp at hb
      | some e => simp [hasElemB, hx]
    · rw [displayOf_modifyElem_ne _ _ _ _ hi]
      simp [hi]
  · have hb' : hasElemB p "global-save-button" = false := by
      cases h : hasElemB p "global-save-button"
      · rfl
      · exact absurd h hb
    simp [hb']

theorem navClickCore_not_api (p : Page) (s : String)
    (hne : (s == "api-config") = false)
    (hsec : hasElemB p (s ++ "-section") = true) :
    navClickCore p s = .ok (.noRequest (saveButtonToggle
      ((hideSections { p with navActive := s }).modifyElem (s ++ "-section")
        (fun e => { e with display := "block" })) s)) := by
  unfold navClickCore
  dsimp only
  rw [setDisplayE_of_has _ _ _ (by rw [hasElemB_hideSections]; exact hsec)]
  simp [bind, Except.bind, hne, pure, Except.pure]

theorem navClick_not_api_display (p : Page) (s : String) (o : FetchOutcome)
    (hne : (s == "api-config") = false)
    (hsec : hasElemB p (s ++ "-section") = true) :
    ∃ q, navClick p s o = .ok q ∧
      ∀ i, displayOf q i =
        if i = "global-save-button" ∧ hasElemB p "global-save-button" = true
        then some "none"
        else displayOf ((hideSections p).modifyElem (s ++ "-section")
          (fun e => { e with display := "block" })) i := by
  refine ⟨_, by rw [navClick, navClickCore_not_api p s hne hsec]; rfl, ?_⟩
  intro i
  rw [displayOf_saveButtonToggle]
  simp only [hne]
  have hmb : hasElemB ((hideSections { p with navActive := s }).modifyElem (s ++ "-section")
      (fun e => { e with display := "block" })) "global-save-button"
      = hasElemB p "global-save-button" := by
    rw [hasElemB_modifyElem, hasElemB_hideSections]
    rfl
  rw [hmb]

  rfl

theorem navClick_api_display (p : Page) (o : FetchOutcome)
    (hsec : hasElemB p "api-config-section" = true)
    (hurl : hasElemB p "ollama-api-url" = true) :
    ∃ q, navClick p "api-config" o = .ok q ∧
      ∀ i, displayOf q i =
        if i = "global-save-button" ∧ hasElemB p "global-save-button" = true
        then some "flex"
        else displayOf ((hideSections p).modifyElem "api-config-section"
          (fun e => { e with display := "block" })) i := by
  unfold navClick navClickCore
  dsimp only
  rw [setDisplayE_of_has _ _ _ (by rw [hasElemB_hideSections]; exact hsec)]
  have hurl2 : ∃ e, ((hideSections { p with navActive := "api-config" }).modifyElem
      ("api-config" ++ "-section") (fun e => { e with display := "block" })).getElementById
      "ollama-api-url" = some e := by
    have : hasElemB ((hideSections { p with navActive := "api-config" }).modifyElem
        ("api-config" ++ "-section") (fun e => { e with display := "block" }))
        "ollama-api-url" = true := by
      rw [hasElemB_modifyElem, hasElemB_hideSections]
      exact hurl
    unfold hasElemB at this
    exact Option.isSome_iff_exists.mp this
  obtain ⟨e, he⟩ := hurl2
  simp only [bind, Except.bind, beq_self_eq_true, if_true]
  set p1 := (hideSections { p with navActive := "api-config" }).modifyElem
    ("api-config" ++ "-section") (fun e => { e with display := "block" }) with hp1
  by_cases hv : e.value = ""
  · rw [show refreshModelsPre p1 = .ok (.noRequest p1) from refreshModelsPre_skip p1 e he hv]
    refine ⟨saveButtonToggle p1 "api-config", by simp [bind, Except.bind, pure, Except.pure], ?_⟩
    intro i
    rw [displayOf_saveButtonToggle]
    have hmb : hasElemB p1 "global-save-button" = hasElemB p "global-save-button" := by
      rw [hp1, hasElemB_modifyElem, hasElemB_hideSections]
      rfl
    rw [hmb]
    rfl
  · rw [show refreshModelsPre p1 = _ from refreshModelsPre_dispatch p1 e he hv]
    set p2 := p1.modifyElemIf "refresh-models-btn"
      (fun e2 => { e2 with disabled := true, textContent := "正在获取模型列表..." }) with hp2
    obtain ⟨q, hq, hdisp⟩ := refreshChain_ok (saveButtonToggle p2 "api-config") o
    refine ⟨q, by simp [bind, Except.bind, pure, Except.pure, hq], ?_⟩
    intro i
    rw [hdisp i, displayOf_saveButtonToggle]
    have hmb : hasElemB p2 "global-save-button" = hasElemB p "global-save-button" := by
      rw [hp2, hasElemB_modifyElemIf, hp1, hasElemB_modifyElem, hasElemB_hideSections]
      rfl
    rw [hmb]
    by_cases hi : i = "global-save-button" ∧ hasElemB p "global-save-button" = true
    · simp [hi]
    · rw [if_neg hi, if_neg hi, hp2]
      rw [displayOf_modifyElemIf_pres p1 i "refresh-models-btn"
        (fun e2 => { e2 with disabled := true, textContent := "正在获取模型列表..." })
        (fun e2 => rfl)]
      rfl

/-- **C7** (confirmed): after a click on any of the four navigation items,
exactly one `content-section` has a visible (non-`none`) display, namely the
section whose id is the clicked item's `data-section` identifier suffixed
with `-section` — for every starting page containing the template's sections
and URL field, and every outcome of the model refresh that an `api-config`
click starts. -/
theorem c7_nav_exactly_one_visible (p : Page) (s : String) (o : FetchOutcome)
    (h1 : hasElemB p "home-section" = true) (h2 : hasElemB p "chat-section" = true)
    (h3 : hasElemB p "api-config-section" = true)
    (h4 : hasElemB p "settings-section" = true)
    (hurl : hasElemB p "ollama-api-url" = true) (hs : s ∈ navSections) :
    ∃ q, navClick p s o = .ok q ∧
      sectionIds.filter (fun i => !(displayOf q i == some "none")) = [s ++ "-section"] := by
  have hsec : ∀ i, i ∈ sectionIds → hasElemB (hideSections p) i = true := by
    intro i hi
    rw [hasElemB_hideSections]
    fin_cases hi
    exacts [h1, h2, h3, h4]
  simp only [navSections, List.mem_cons, List.not_mem_nil, or_false] at hs
  rcases hs with rfl | rfl | rfl | rfl
  · have happ : ("home" ++ "-section" : String) = "home-section" := rfl
    obtain ⟨q, hq, hd⟩ := navClick_not_api_display p "home" o (by decide)
      (by rw [happ]; exact h1)
    rw [happ] at hd
    have eh : displayOf q "home-section" = some "block" := by
      rw [hd "home-section", if_neg (by simp)]
      exact displayOf_setDisplay (hideSections p) _ _ (hsec _ (by decide))
    have ec : displayOf q "chat-section" = some "none" := by
      rw [hd "chat-section", if_neg (by simp),
        displayOf_modifyElem_ne _ _ _ _ (by decide)]
      exact displayOf_hideSections p _ (by decide) h2
    have ea : displayOf q "api-config-section" = some "none" := by
      rw [hd "api-config-section", if_neg (by simp),
        displayOf_modifyElem_ne _ _ _ _ (by decide)]
      exact displayOf_hideSections p _ (by decide) h3
    have es : displayOf q "settings-section" = some "none" := by
      rw [hd "settings-section", if_neg (by simp),
        displayOf_modifyElem_ne _ _ _ _ (by decide)]
      exact displayOf_hideSections p _ (by decide) h4
    exact ⟨q, hq, by rw [happ]; simp [sectionIds, eh, ec, ea, es]⟩
  · have happ : ("chat" ++ "-section" : String) = "chat-section" := rfl
    obtain ⟨q, hq, hd⟩ := navClick_not_api_display p "chat" o (by decide)
      (by rw [happ]; exact h2)
    rw [happ] at hd
    have eh : displayOf q "home-section" = some "none" := by
      rw [hd "home-section", if_neg (by simp),
        displayOf_modifyElem_ne _ _ _ _ (by decide)]
      exact displayOf_hideSections p _ (by decide) h1
    have ec : displayOf q "chat-section" = some "block" := by
      rw [hd "chat-section", if_neg (by simp)]
      exact displayOf_setDisplay (hideSections p) _ _ (hsec _ (by decide))
    have ea : displayOf q "api-config-section" = some "none" := by
      rw [hd "api-config-section", if_neg (by simp),
        displayOf_modifyElem_ne _ _ _ _ (by decide)]
      exact displayOf_hideSections p _ (by decide) h3
    have es : displayOf q "settings-section" = some "none" := by
      rw [hd "settings-section", if_neg (by simp),
        displayOf_modifyElem_ne _ _ _ _ (by decide)]
      exact displayOf_hideSections p _ (by decide) h4
    exact ⟨q, hq, by rw [happ]; simp [sectionIds, eh, ec, ea, es]⟩
  · have happ : ("api-config" ++ "-section" : String) = "api-config-section" := rfl
    obtain ⟨q, hq, hd⟩ := navClick_api_display p o h3 hurl
    have eh : displayOf q "home-section" = some "none" := by
      rw [hd "home-section", if_neg (by simp),
        displayOf_modifyElem_ne _ _ _ _ (by decide)]
      exact displayOf_hideSections p _ (by decide) h1
    have ec : displayOf q "chat-section" = some "none" := by
      rw [hd "chat-section", if_neg (by simp),
        displayOf_modifyElem_ne _ _ _ _ (by decide)]
      exact displayOf_hideSections p _ (by decide) h2
    have ea : displayOf q "api-config-section" = some "block" := by
      rw [hd "api-config-section", if_neg (by simp)]
      exact displayOf_setDisplay (hideSections p) _ _ (hsec _ (by decide))
    have es : displayOf q "settings-section" = some "none" := by
      rw [hd "settings-section", if_neg (by simp),
        displayOf_modifyElem_ne _ _ _ _ (by decide)]
      exact displayOf_hideSections p _ (by decide) h4
    exact ⟨q, hq, by rw [happ]; simp [sectionIds, eh, ec, ea, es]⟩
  · have happ : ("settings" ++ "-section" : String) = "settings-section" := rfl
    obtain ⟨q, hq, hd⟩ := navClick_not_api_display p "settings" o (by decide)
      (by rw [happ]; exact h4)
    rw [happ] at hd
    have eh : displayOf q "home-section" = some "none" := by
      rw [hd "home-section", if_neg (by simp),
        displayOf_modifyElem_ne _ _ _ _ (by decide)]
      exact displayOf_hideSections p _ (by decide) h1
    have ec : displayOf q "chat-section" = some "none" := by
      rw [hd "chat-section", if_neg (by simp),
        displayOf_modifyElem_ne _ _ _ _ (by decide)]
      exact displayOf_hideSections p _ (by decide) h2
    have ea : displayOf q "api-config-section" = some "none" := by
      rw [hd "api-config-section", if_neg (by simp),
        displayOf_modifyElem_ne _ _ _ _ (by decide)]
      exact displayOf_hideSections p _ (by decide) h3
    have es : displayOf q "settings-section" = some "block" := by
      rw [hd "settings-section", if_neg (by simp)]
      exact displayOf_setDisplay (hideSections p) _ _ (hsec _ (by decide))
    exact ⟨q, hq, by rw [happ]; simp [sectionIds, eh, ec, ea, es]⟩

/-- **C8** (confirmed): after a click on a navigation item the floating save
control shows (`flex`) exactly when the clicked identifier is `api-config`,
and is hidden (`none`) for every other identifier. -/
theorem c8_floating_save_visibility (p : Page) (s : String) (o : FetchOutcome)
    (h1 : hasElemB p "home-section" = true) (h2 : hasElemB p "chat-section" = true)
    (h3 : hasElemB p "api-config-section" = true)
    (h4 : hasElemB p "settings-section" = true)
    (hurl : hasElemB p "ollama-api-url" = true)
    (hb : hasElemB p "global-save-button" = true) (hs : s ∈ navSections) :
    ∃ q, navClick p s o = .ok q ∧
      displayOf q "global-save-button" =
        some (if s = "api-config" then "flex" else "none") := by
  simp only [navSections, List.mem_cons, List.not_mem_nil, or_false] at hs
  rcases hs with rfl | rfl | rfl | rfl
  · obtain ⟨q, hq, hd⟩ := navClick_not_api_display p "home" o (by decide) h1
    exact ⟨q, hq, by rw [hd "global-save-button", if_pos ⟨rfl, hb⟩]; simp⟩
  · obtain ⟨q, hq, hd⟩ := navClick_not_api_display p "chat" o (by decide) h2
    exact ⟨q, hq, by rw [hd "global-save-button", if_pos ⟨rfl, hb⟩]; simp⟩
  · obtain ⟨q, hq, hd⟩ := navClick_api_display p o h3 hurl
    exact ⟨q, hq, by rw [hd "global-save-button", if_pos ⟨rfl, hb⟩]; simp⟩
  · obtain ⟨q, hq, hd⟩ := navClick_not_api_display p "settings" o (by decide) h4
    exact ⟨q, hq, by rw [hd "global-save-button", if_pos ⟨rfl, hb⟩]; simp⟩

/-- Witness for `c7_nav_exactly_one_visible`: clicking the chat item on the
freshly served page leaves exactly `chat-section` visible. -/
theorem c7_witness :
    ∃ q, navClick templatePage "chat" (.ok { success := true }) = .ok q ∧
      sectionIds.filter (fun i => !(displayOf q i == some "none")) = ["chat" ++ "-section"] :=
  c7_nav_exactly_one_visible templatePage "chat" (.ok { success := true })
    rfl rfl rfl rfl rfl (by decide)

/-- Witness for `c8_floating_save_visibility`: clicking the api-config item
on the freshly served page shows the floating save control. -/
theorem c8_witness :
    ∃ q, navClick templatePage "api-config" (.ok { success := true, models := ["llama3"] }) = .ok q ∧
      displayOf q "global-save-button" =
        some (if "api-config" = "api-config" then "flex" else "none") :=
  c8_floating_save_visibility templatePage "api-config"
    (.ok { success := true, models := ["llama3"] })
    rfl rfl rfl rfl rfl rfl (by decide)

/-!  Claim C4: totality of draft collection. -/

def isErrorB {α : Type} : JsOut α → Bool
  | .error _ => true
  | .ok _ => false

/-- A page with no elements and no checked radios at all. -/
def emptyPage : Page :=
  { elems := [], radios := [] }

/-- A page with no elements but with the analysis/writing radio groups set to
custom (ollama and online sub-types respectively). -/
def bareRadiosPage : Page :=
  { elems := [],
    radios := [("analysis-model", "custom"), ("analysis-custom-type", "ollama"),
               ("writing-model", "custom"), ("writing-custom-type", "online")] }

/-- **C4** counterexample: draft collection is not total for the config-form
submit collector.  On the shipped template with the online-API radio checked
it throws, because `document.getElementById('online-model-name').value` is an
unguarded access and the template defines no such id; and on a page with no
elements it throws at the very first unguarded `.checked` access.  The claim
that both collectors never throw is therefore false. -/
theorem c4_counterexample_form_collector_throws :
    isErrorB (collectFormConfig onlineApiPage) = true ∧
    hasElemB onlineApiPage "online-model-name" = false ∧
    isErrorB (collectFormConfig emptyPage) = true := by
  refine ⟨rfl, rfl, rfl⟩

/-- **C4** amended: only `collectGlobalConfig` (the floating-save collector)
is total: on any page where every element lookup misses and the custom radio
groups are the only checked radios, it still returns a draft, with `false`
for the missing API-type checkbox, the literal default
`http://127.0.0.1:11434` (not the empty string) for the missing Ollama URL
field, and `""` for the missing custom-model inputs; radio-guarded fields are
omitted when their radio is unchecked.  The form-submit collector has no such
fallbacks (see the counterexample). -/
theorem c4_amended_collect_global_total (p : Page)
    (he : p.elems = [])
    (hr : p.radios = [("analysis-model", "custom"), ("analysis-custom-type", "ollama"),
                      ("writing-model", "custom"), ("writing-custom-type", "online")]) :
    collectGlobalConfig p =
      { use_online_api := false,
        ollama_api_url := some "http://127.0.0.1:11434",
        analysis_model_name := some "custom",
        analysis_custom_type := some "ollama",
        analysis_custom_ollama_model := some "",
        writing_model_name := some "custom",
        writing_custom_type := some "online",
        writing_custom_online_model := some "" } := by
  have hg : ∀ i, p.getElementById i = none := by
    intro i
    unfold Page.getElementById
    rw [he]
    rfl
  unfold collectGlobalConfig globalWritingConfig globalAnalysisConfig globalTopConfig
  unfold Page.checkedRadio
  rw [hr]
  simp [hg, jsOr, alookup]

/-- Witness for `c4_amended_collect_global_total` at the concrete page. -/
theorem c4_amended_witness :
    collectGlobalConfig bareRadiosPage =
      { use_online_api := false,
        ollama_api_url := some "http://127.0.0.1:11434",
        analysis_model_name := some "custom",
        analysis_custom_type := some "ollama",
        analysis_custom_ollama_model := some "",
        writing_model_name := some "custom",
        writing_custom_type := some "online",
        writing_custom_online_model := some "" } :=
  c4_amended_collect_global_total bareRadiosPage rfl rfl

/-!  Claim C6: branch exclusivity of the draft. -/

theorem globalAnalysisConfig_preserves (p : Page) (c : ConfigDraft) :
    (globalAnalysisConfig p c).use_online_api = c.use_online_api ∧
    (globalAnalysisConfig p c).ollama_api_url = c.ollama_api_url ∧
    (globalAnalysisConfig p c).selected_ollama_model = c.selected_ollama_model ∧
    (globalAnalysisConfig p c).online_api_url = c.online_api_url ∧
    (globalAnalysisConfig p c).online_api_key = c.online_api_key ∧
    (globalAnalysisConfig p c).online_api_model = c.online_api_model ∧
    (globalAnalysisConfig p c).writing_custom_ollama_model = c.writing_custom_ollama_model ∧
    (globalAnalysisConfig p c).writing_custom_online_model = c.writing_custom_online_model := by
  unfold globalAnalysisConfig
  repeat' split
  all_goals simp

theorem globalWritingConfig_preserves (p : Page) (c : ConfigDraft) :
    (globalWritingConfig p c).use_online_api = c.use_online_api ∧
    (globalWritingConfig p c).ollama_api_url = c.ollama_api_url ∧
    (globalWritingConfig p c).selected_ollama_model = c.selected_ollama_model ∧
    (globalWritingConfig p c).online_api_url = c.online_api_url ∧
    (globalWritingConfig p c).online_api_key = c.online_api_key ∧
    (globalWritingConfig p c).online_api_model = c.online_api_model ∧
    (globalWritingConfig p c).analysis_custom_ollama_model = c.analysis_custom_ollama_model ∧
    (globalWritingConfig p c).analysis_custom_online_model = c.analysis_custom_online_model := by
  unfold globalWritingConfig
  repeat' split
  all_goals simp

theorem globalAnalysisConfig_excl (p : Page) (c : ConfigDraft)
    (h1 : c.analysis_custom_ollama_model = none)
    (h2 : c.analysis_custom_online_model = none) :
    (globalAnalysisConfig p c).analysis_custom_ollama_model = none ∨
    (globalAnalysisConfig p c).analysis_custom_online_model = none := by
  unfold globalAnalysisConfig
  repeat' split
  all_goals simp [h1, h2]

theorem globalWritingConfig_excl (p : Page) (c : ConfigDraft)
    (h1 : c.writing_custom_ollama_model = none)
    (h2 : c.writing_custom_online_model = none) :
    (globalWritingConfig p c).writing_custom_ollama_model = none ∨
    (globalWritingConfig p c).writing_custom_online_model = none := by
  unfold globalWritingConfig
  repeat' split
  all_goals simp [h1, h2]

theorem globalTopConfig_branch (p : Page) :
    ((globalTopConfig p).use_online_api = false →
      (globalTopConfig p).online_api_url = none ∧
      (globalTopConfig p).online_api_key = none ∧
      (globalTopConfig p).online_api_model = none ∧
      (globalTopConfig p).ollama_api_url ≠ none ∧
      ((globalTopConfig p).selected_ollama_model ≠ none ↔
        hasElemB p "ollama-model-select" = true)) ∧
    ((globalTopConfig p).use_online_api = true →
      (globalTopConfig p).ollama_api_url = none ∧
      (globalTopConfig p).selected_ollama_model = none ∧
      (globalTopConfig p).online_api_url ≠ none ∧
      (globalTopConfig p).online_api_key ≠ none ∧
      (globalTopConfig p).online_api_model ≠ none) ∧
    (globalTopConfig p).analysis_custom_ollama_model = none ∧
    (globalTopConfig p).analysis_custom_online_model = none ∧
    (globalTopConfig p).writing_custom_ollama_model = none ∧
    (globalTopConfig p).writing_custom_online_model = none := by
  unfold globalTopConfig hasElemB
  by_cases hb : ((p.getElementById "use-online-api").map (fun x => x.checked)).getD false = true
  · simp only [hb, Bool.not_true, Bool.false_eq_true, if_false]
    simp [hb, jsOr]
  · simp only [Bool.not_eq_true] at hb
    simp only [hb, Bool.not_false, if_true]
    repeat' split
    all_goals simp_all [jsOr]

theorem collectFormConfig_steps (p : Page) (c : ConfigDraft)
    (h : collectFormConfig p = .ok c) :
    ∃ c1 c2, formTopConfig p = .ok c1 ∧ formAnalysisConfig p c1 = .ok c2 ∧
      formWritingConfig p c2 = .ok c := by
  unfold collectFormConfig at h
  cases h1 : formTopConfig p with
  | error e => rw [h1] at h; simp [bind, Except.bind] at h
  | ok c1 =>
    rw [h1] at h
    simp only [bind, Except.bind] at h
    cases h2 : formAnalysisConfig p c1 with
    | error e => rw [h2] at h; simp at h
    | ok c2 =>
      rw [h2] at h
      exact ⟨c1, c2, rfl, h2, h⟩

theorem formTopConfig_branch (p : Page) (c : ConfigDraft)
    (h : formTopConfig p = .ok c) :
    (c.use_online_api = false →
      c.online_api_url = none ∧ c.online_api_key = none ∧ c.online_api_model = none ∧
      c.ollama_api_url ≠ none ∧
      (c.selected_ollama_model ≠ none ↔ hasElemB p "ollama-model-select" = true)) ∧
    (c.use_online_api = true →
      c.ollama_api_url = none ∧ c.selected_ollama_model = none ∧
      c.online_api_url ≠ none ∧ c.online_api_key ≠ none ∧ c.online_api_model ≠ none) ∧
    c.analysis_custom_ollama_model = none ∧ c.analysis_custom_online_model = none ∧
    c.writing_custom_ollama_model = none ∧ c.writing_custom_online_model = none := by
  unfold formTopConfig at h
  cases hc : p.getCheckedE "use-online-api" with
  | error e => rw [hc] at h; simp [bind, Except.bind] at h
  | ok b =>
    rw [hc] at h
    simp only [bind, Except.bind] at h
    cases b with
    | false =>
      simp only [Bool.not_false, if_true] at h
      cases hu : p.getValueE "ollama-api-url" with
      | error e => rw [hu] at h; simp at h
      | ok url =>
        rw [hu] at h
        simp only at h
        unfold hasElemB
        cases hsel : p.getElementById "ollama-model-select" with
        | none =>
          rw [hsel] at h
          simp [pure, Except.pure] at h
          subst h
          simp
        | some e =>
          rw [hsel] at h
          simp [pure, Except.pure] at h
          subst h
          simp
    | true =>
      simp only [Bool.not_true, Bool.false_eq_true, if_false] at h
      cases hu : p.getValueE "online-api-url" with
      | error e => rw [hu] at h; simp at h
      | ok u =>
        rw [hu] at h
        simp only at h
        cases hk : p.getValueE "online-api-key" with
        | error e => rw [hk] at h; simp at h
        | ok k =>
          rw [hk] at h
          simp only at h
          cases hm : p.getValueE "online-model-name" with
          | error e => rw [hm] at h; simp at h
          | ok m =>
            rw [hm] at h
            simp [pure, Except.pure] at h
            subst h
            simp

theorem formAnalysisConfig_preserves (p : Page) (c c' : ConfigDraft)
    (h : formAnalysisConfig p c = .ok c') :
    c'.use_online_api = c.use_online_api ∧
    c'.ollama_api_url = c.ollama_api_url ∧
    c'.selected_ollama_model = c.selected_ollama_model ∧
    c'.online_api_url = c.online_api_url ∧
    c'.online_api_key = c.online_api_key ∧
    c'.online_api_model = c.online_api_model ∧
    c'.writing_custom_ollama_model = c.writing_custom_ollama_model ∧
    c'.writing_custom_online_model = c.writing_custom_online_model ∧
    (c.analysis_custom_ollama_model = none → c.analysis_custom_online_model = none →
      (c'.analysis_custom_ollama_model = none ∨ c'.analysis_custom_online_model = none)) := by
  unfold formAnalysisConfig at h
  cases ha : p.checkedRadioValueE "analysis-model" with
  | error e => rw [ha] at h; simp [bind, Except.bind] at h
  | ok av =>
    rw [ha] at h
    simp only [bind, Except.bind] at h
    by_cases hav : av == "custom"
    · simp only [hav, if_true] at h
      cases ht : p.checkedRadioValueE "analysis-custom-type" with
      | error e => rw [ht] at h; simp at h
      | ok t =>
        rw [ht] at h
        simp only at h
        by_cases hto : t == "ollama"
        · simp only [hto, if_true] at h
          cases hv : p.getValueE "analysis-ollama-model-select" with
          | error e => rw [hv] at h; simp at h
          | ok v =>
            rw [hv] at h
            simp [pure, Except.pure] at h
            subst h
            simp
        · simp only [hto, Bool.false_eq_true, if_false] at h
          cases hv : p.getValueE "analysis-online-model-name" with
          | error e => rw [hv] at h; simp at h
          | ok v =>
            rw [hv] at h
            simp [pure, Except.pure] at h
            subst h
            simp
            exact fun h1 _ => h1
    · simp only [hav, Bool.false_eq_true, if_false, pure, Except.pure, Except.ok.injEq] at h
      subst h
      simp
      exact fun h1 _ => Or.inl h1

theorem formWritingConfig_preserves (p : Page) (c c' : ConfigDraft)
    (h : formWritingConfig p c = .ok c') :
    c'.use_online_api = c.use_online_api ∧
    c'.ollama_api_url = c.ollama_api_url ∧
    c'.selected_ollama_model = c.selected_ollama_model ∧
    c'.online_api_url = c.online_api_url ∧
    c'.online_api_key = c.online_api_key ∧
    c'.online_api_model = c.online_api_model ∧
    c'.analysis_custom_ollama_model = c.analysis_custom_ollama_model ∧
    c'.analysis_custom_online_model = c.analysis_custom_online_model ∧
    (c.writing_custom_ollama_model = none → c.writing_custom_online_model = none →
      (c'.writing_custom_ollama_model = none ∨ c'.writing_custom_online_model = none)) := by
  unfold formWritingConfig at h
  cases ha : p.checkedRadioValueE "writing-model" with
  | error e => rw [ha] at h; simp [bind, Except.bind] at h
  | ok wv =>
    rw [ha] at h
    simp only [bind, Except.bind] at h
    by_cases hav : wv == "custom"
    · simp only [hav, if_true] at h
      cases ht : p.checkedRadioValueE "writing-custom-type" with
      | error e => rw [ht] at h; simp at h
      | ok t =>
        rw [ht] at h
        simp only at h
        by_cases hto : t == "ollama"
        · simp only [hto, if_true] at h
          cases hv : p.getValueE "writing-ollama-model-select" with
          | error e => rw [hv] at h; simp at h
          | ok v =>
            rw [hv] at h
            simp [pure, Except.pure] at h
            subst h
            simp
        · simp only [hto, Bool.false_eq_true, if_false] at h
          cases hv : p.getValueE "writing-online-model-name" with
          | error e => rw [hv] at h; simp at h
          | ok v =>
            rw [hv] at h
            simp [pure, Except.pure] at h
            subst h
            simp
            exact fun h1 _ => h1
    · simp only [hav, Bool.false_eq_true, if_false, pure, Except.pure, Except.ok.injEq] at h
      subst h
      simp
      exact fun h1 _ => Or.inl h1

/-- **C6** amended: branch exclusivity holds — a collected draft never
carries Ollama-branch and online-branch top-level fields at once, and within
each of the analysis and writing configurations at most one of the
Ollama/online custom-model fields is present — but the presence of
`selected_ollama_model` additionally requires an `ollama-model-select`
element, which the shipped template does not define; `ollama_api_url` and
the three online fields are present exactly per `use_online_api`.  Holds for
`collectGlobalConfig` on every page and for the form-submit collector on
every page where it returns at all. -/
theorem c6_amended_branch_exclusivity (p : Page) :
    ((collectGlobalConfig p).use_online_api = false →
      (collectGlobalConfig p).online_api_url = none ∧
      (collectGlobalConfig p).online_api_key = none ∧
      (collectGlobalConfig p).online_api_model = none ∧
      (collectGlobalConfig p).ollama_api_url ≠ none ∧
      ((collectGlobalConfig p).selected_ollama_model ≠ none ↔
        hasElemB p "ollama-model-select" = true)) ∧
    ((collectGlobalConfig p).use_online_api = true →
      (collectGlobalConfig p).ollama_api_url = none ∧
      (collectGlobalConfig p).selected_ollama_model = none ∧
      (collectGlobalConfig p).online_api_url ≠ none ∧
      (collectGlobalConfig p).online_api_key ≠ none ∧
      (collectGlobalConfig p).online_api_model ≠ none) ∧
    ((collectGlobalConfig p).analysis_custom_ollama_model = none ∨
      (collectGlobalConfig p).analysis_custom_online_model = none) ∧
    ((collectGlobalConfig p).writing_custom_ollama_model = none ∨
      (collectGlobalConfig p).writing_custom_online_model = none) ∧
    (∀ c, collectFormConfig p = .ok c →
      (c.use_online_api = false →
        c.online_api_url = none ∧ c.online_api_key = none ∧ c.online_api_model = none ∧
        c.ollama_api_url ≠ none ∧
        (c.selected_ollama_model ≠ none ↔ hasElemB p "ollama-model-select" = true)) ∧
      (c.use_online_api = true →
        c.ollama_api_url = none ∧ c.selected_ollama_model = none ∧
        c.online_api_url ≠ none ∧ c.online_api_key ≠ none ∧ c.online_api_model ≠ none) ∧
      (c.analysis_custom_ollama_model = none ∨ c.analysis_custom_online_model = none) ∧
      (c.writing_custom_ollama_model = none ∨ c.writing_custom_online_model = none)) := by
  obtain ⟨gt1, gt2, gt3, gt4, gt5, gt6⟩ := globalTopConfig_branch p
  obtain ⟨a1, a2, a3, a4, a5, a6, a7, a8⟩ :=
    globalAnalysisConfig_preserves p (globalTopConfig p)
  obtain ⟨w1, w2, w3, w4, w5, w6, w7, w8⟩ :=
    globalWritingConfig_preserves p (globalAnalysisConfig p (globalTopConfig p))
  have hcg : collectGlobalConfig p =
      globalWritingConfig p (globalAnalysisConfig p (globalTopConfig p)) := rfl
  refine ⟨?_, ?_, ?_, ?_, ?_⟩
  · intro hf
    rw [hcg] at hf ⊢
    rw [w1, a1] at hf
    obtain ⟨o1, o2, o3, o4, o5⟩ := gt1 hf
    rw [w4, a4, w5, a5, w6, a6, w2, a2, w3, a3]
    exact ⟨o1, o2, o3, o4, o5⟩
  · intro hf
    rw [hcg] at hf ⊢
    rw [w1, a1] at hf
    obtain ⟨o1, o2, o3, o4, o5⟩ := gt2 hf
    rw [w2, a2, w3, a3, w4, a4, w5, a5, w6, a6]
    exact ⟨o1, o2, o3, o4, o5⟩
  · rw [hcg, w7, w8]
    exact globalAnalysisConfig_excl p (globalTopConfig p) gt3 gt4
  · rw [hcg]
    have hw : (globalAnalysisConfig p (globalTopConfig p)).writing_custom_ollama_model = none :=
      by rw [a7, gt5]
    have hw2 : (globalAnalysisConfig p (globalTopConfig p)).writing_custom_online_model = none :=
      by rw [a8, gt6]
    exact globalWritingConfig_excl p _ hw hw2
  · intro c hc
    obtain ⟨c1, c2, h1, h2, h3⟩ := collectFormConfig_steps p c hc
    obtain ⟨f1, f2, f3, f4, f5, f6⟩ := formTopConfig_branch p c1 h1
    obtain ⟨b1, b2, b3, b4, b5, b6, b7, b8, b9⟩ := formAnalysisConfig_preserves p c1 c2 h2
    obtain ⟨d1, d2, d3, d4, d5, d6, d7, d8, d9⟩ := formWritingConfig_preserves p c2 c h3
    refine ⟨?_, ?_, ?_, ?_⟩
    · intro hf
      rw [d1, b1] at hf
      obtain ⟨o1, o2, o3, o4, o5⟩ := f1 hf
      rw [d4, b4, d5, b5, d6, b6, d2, b2, d3, b3]
      exact ⟨o1, o2, o3, o4, o5⟩
    · intro hf
      rw [d1, b1] at hf
      obtain ⟨o1, o2, o3, o4, o5⟩ := f2 hf
      rw [d2, b2, d3, b3, d4, b4, d5, b5, d6, b6]
      exact ⟨o1, o2, o3, o4, o5⟩
    · rcases b9 f3 f4 with hl | hr
      · exact Or.inl (by rw [d7, hl])
      · exact Or.inr (by rw [d8, hr])
    · have hw : c2.writing_custom_ollama_model = none := by rw [b7, f5]
      have hw2 : c2.writing_custom_online_model = none := by rw [b8, f6]
      exact d9 hw hw2

/-- **C6** counterexample: on the freshly served page (local API selected)
both collectors return a draft with `use_online_api = false` whose
`selected_ollama_model` is absent, because the template has no
`ollama-model-select` element — refuting "contains the Ollama-branch
top-level fields (ollama_api_url, selected_ollama_model) exactly when
use_online_api is false". -/
theorem c6_counterexample_selected_model_missing :
    ((collectFormConfig templatePage).toOption.map
      (fun c => (c.use_online_api, c.selected_ollama_model))) = some (false, none) ∧
    (collectGlobalConfig templatePage).use_online_api = false ∧
    (collectGlobalConfig templatePage).selected_ollama_model = none ∧
    hasElemB templatePage "ollama-model-select" = false :=
  ⟨rfl, rfl, rfl, rfl⟩

/-- Witness for `c6_amended_branch_exclusivity` at the page with the online
radio checked: the Ollama field is absent and the online URL present. -/
theorem c6_amended_witness :
    (collectGlobalConfig onlineApiPage).ollama_api_url = none ∧
    (collectGlobalConfig onlineApiPage).online_api_url ≠ none :=
  ⟨((c6_amended_branch_exclusivity onlineApiPage).2.1 rfl).1,
   ((c6_amended_branch_exclusivity onlineApiPage).2.1 rfl).2.2.1⟩

/-!  Claim C5: verbatim error surfacing. -/

/-- The template page with a `.txt` novel selected in the file input. -/
def uploadPage : Page :=
  { templatePage with
      elems := aupdate (fun e => { e with files := ["novel.txt"] }) "novel-file" templateElems }

/-- The template page with two saved conversations in the history list. -/
def historyPage : Page :=
  { templatePage with historyItems := ["saves/one.json", "saves/two.json"] }

/-- The template page with a test message typed into the API test field. -/
def testPage : Page :=
  { templatePage with
      elems := aupdate (fun e => { e with value := "你好" }) "test-message" templateElems }

/-- **C5** amended: for a backend `success: false` response carrying error
string `err`, every request-triggering handler except three surfaces `err`
verbatim inside its failure message — as a blocking alert, or as the inline
test-result text for the API test panel; the settings-form save and the
reset button alert fixed strings that drop the error, and the model-refresh
handler surfaces nothing at all (it only writes to the console). -/
theorem c5_amended_error_surfacing (err : String) :
    (pageOf (sendActionClick narratingPage (.ok { success := false, error := err }))).alerts
      = ["处理行动失败: " ++ err] ∧
    (pageOf (settingsSubmit templatePage (.ok { success := false, error := err }))).alerts
      = ["保存设置失败"] ∧
    (pageOf (apiConfigSubmit templatePage (.ok { success := false, error := err }))).alerts
      = ["保存API配置失败: " ++ err] ∧
    (pageOf (startNarrativeClick initStagePage (.ok { success := false, error := err }))).alerts
      = ["初始化叙事失败: " ++ err] ∧
    (pageOf (saveGameClick narratingPage (.ok { success := false, error := err }))).alerts
      = ["保存游戏失败: " ++ err] ∧
    (pageOf (novelUploadSubmit uploadPage (.ok { success := false, error := err }))).alerts
      = ["处理小说失败: " ++ err] ∧
    (pageOf (loadHistoryClick historyPage "saves/one.json" (.ok { success := false, error := err }))).alerts
      = ["加载历史对话失败: " ++ err] ∧
    (pageOf (deleteHistoryClick historyPage "saves/one.json" true (.ok { success := false, error := err }))).alerts
      = ["删除历史对话失败: " ++ err] ∧
    (pageOf (globalSaveClick templatePage (.ok { success := false, error := err }))).alerts
      = ["保存全局设置失败: " ++ err] ∧
    labelOf (pageOf (testApiClick testPage (.ok { success := false, error := err }))) "test-result"
      = some ("测试失败: " ++ err) ∧
    (pageOf (resetAppClick templatePage true (.ok { success := false, error := err }))).alerts
      = ["重置应用失败"] ∧
    (pageOf (refreshModelsRun templatePage (.ok { success := false, error := err }))).alerts
      = [] :=
  ⟨rfl, rfl, rfl, rfl, rfl, rfl, rfl, rfl, rfl, rfl, rfl, rfl⟩

/-- Witness for `c5_amended_error_surfacing` at a concrete error string. -/
theorem c5_amended_error_surfacing_witness :
    (pageOf (sendActionClick narratingPage (.ok { success := false, error := "模型超时" }))).alerts
      = ["处理行动失败: " ++ "模型超时"] :=
  (c5_amended_error_surfacing "模型超时").1

/-- **C5** counterexample: two handlers drop the backend error.  On
`success: false` with `error = "boom"`, the settings-form save alerts the
fixed string `保存设置失败` and the reset button alerts the fixed string
`重置应用失败`; neither message contains the error, refuting "surfaced
verbatim ... for every request-triggering handler, including the
settings-form save and the reset button". -/
theorem c5_counterexample_fixed_failure_alerts :
    (pageOf (settingsSubmit templatePage (.ok { success := false, error := "boom" }))).alerts
      = ["保存设置失败"] ∧
    (pageOf (resetAppClick templatePage true (.ok { success := false, error := "boom" }))).alerts
      = ["重置应用失败"] ∧
    (pageOf (refreshModelsRun templatePage (.ok { success := false, error := "boom" }))).alerts
      = [] :=
  ⟨rfl, rfl, rfl⟩

/-!  Claim C3: frame effect of failed requests. -/

/-- Whether a fetch outcome is a failure: backend-reported (`success: false`)
or network-level. -/
def isFailure : FetchOutcome → Bool
  | .ok d => !d.success
  | .netFailure _ => true

theorem alerts_alert (p : Page) (s : String) :
    (p.alert s).alerts = p.alerts ++ [s] := rfl

/-- **C3** counterexample: the claim that a failed `/process_action` leaves
the transcript and the input field as they were before the click is false —
the handler optimistically appends the user's message and clears the input
before the request, and a backend failure (`success: false`) does not roll
either back. -/
theorem c3_counterexample_optimistic_append :
    narratingPage.transcript = [] ∧
    valueOf narratingPage "user-action" = some "调查房间" ∧
    (pageOf (sendActionClick narratingPage
      (.ok { success := false, error := "模型超时" }))).transcript
      = [⟨"用户", "调查房间"⟩] ∧
    valueOf (pageOf (sendActionClick narratingPage
      (.ok { success := false, error := "模型超时" }))) "user-action" = some "" :=
  ⟨rfl, rfl, rfl, rfl⟩

/-- **C3** amended: after a failed `/process_action` request (backend
`success: false` or network failure) the page differs from the pre-click
state in exactly: one `(用户, action)` entry appended to the transcript, the
cleared `user-action` input, the send button re-enabled with its original
label, and the failure alert; every other element, the radio states and the
history list are untouched. -/
theorem c3_amended_send_action_failure (p : Page) (ua btn : Elem) (a : String)
    (hu : p.getElementById "user-action" = some ua)
    (hv : ua.value = a) (ha : a ≠ "")
    (hh : hasElemB p "narrative-history" = true)
    (hb : p.getElementById "send-action-btn" = some btn)
    (o : FetchOutcome) (ho : isFailure o = true) :
    (pageOf (sendActionClick p o)).transcript = p.transcript ++ [⟨"用户", a⟩] ∧
    valueOf (pageOf (sendActionClick p o)) "user-action" = some "" ∧
    disabledOf (pageOf (sendActionClick p o)) "send-action-btn" = some false ∧
    labelOf (pageOf (sendActionClick p o)) "send-action-btn" = some "发送" ∧
    (∀ i, i ≠ "user-action" → i ≠ "send-action-btn" →
      (pageOf (sendActionClick p o)).getElementById i = p.getElementById i) ∧
    (∀ d, o = .ok d →
      (pageOf (sendActionClick p o)).alerts = p.alerts ++ ["处理行动失败: " ++ d.error]) ∧
    (∀ e, o = .netFailure e →
      (pageOf (sendActionClick p o)).alerts = p.alerts ++ ["处理行动出错: " ++ e]) ∧
    (pageOf (sendActionClick p o)).radios = p.radios ∧
    (pageOf (sendActionClick p o)).historyItems = p.historyItems := by
  obtain ⟨nh, hnh⟩ := Option.isSome_iff_exists.mp hh
  set busyF : Elem → Elem :=
    fun e => { e with disabled := true, textContent := "处理中..." } with hbusyF
  set p1 := p.modifyElem "send-action-btn" busyF with hp1
  have h1 : p1.getElementById "narrative-history" = some nh := by
    rw [hp1, getElementById_modifyElem, if_neg (by decide)]
    exact hnh
  set p2 : Page := { p1 with transcript := p1.transcript ++ [⟨"用户", a⟩] } with hp2
  have h2 : p1.appendMessageE ⟨"用户", a⟩ = .ok p2 := by
    unfold Page.appendMessageE
    rw [h1]
  have h3 : p2.getElementById "user-action" = some ua := by
    have : p2.getElementById "user-action" = p1.getElementById "user-action" := rfl
    rw [this, hp1, getElementById_modifyElem, if_neg (by decide)]
    exact hu
  set clearF : Elem → Elem := fun e => { e with value := "" } with hclearF
  set p3 := p2.modifyElem "user-action" clearF with hp3
  have h4 : p2.setValueE "user-action" "" = .ok p3 := by
    unfold Page.setValueE
    rw [h3]
  have hpre : sendActionPre p = .ok (.request p3 a) := by
    unfold sendActionPre
    rw [Page.getValueE, hu]
    simp only [bind, Except.bind, hv]
    rw [if_neg (by simp [ha])]
    rw [← hp1, h2]
    simp only [bind, Except.bind]
    rw [h4]
    rfl
  set restoreF : Elem → Elem :=
    fun e => { e with disabled := false, textContent := "发送" } with hrestoreF
  have hmain : ∃ msg, pageOf (sendActionClick p o) =
      (p3.alert msg).modifyElem "send-action-btn" restoreF ∧
      msg = (match o with
        | .ok d => "处理行动失败: " ++ d.error
        | .netFailure e => "处理行动出错: " ++ e) := by
    unfold sendActionClick
    rw [hpre]
    simp only [bind, Except.bind]
    cases o with
    | ok d =>
      have hd : d.success = false := by
        simpa [isFailure] using ho
      exact ⟨"处理行动失败: " ++ d.error, by simp [fetchChain, hd, pageOf], rfl⟩
    | netFailure e =>
      exact ⟨"处理行动出错: " ++ e, by simp [fetchChain, pageOf], rfl⟩
  obtain ⟨msg, hmain, hmsg⟩ := hmain
  have h5g : p3.alerts = p.alerts := by
    rw [hp3, alerts_modifyElem, hp2]
    rfl
  rw [hmain]
  refine ⟨?_, ?_, ?_, ?_, ?_, ?_, ?_, ?_, ?_⟩
  · rw [transcript_modifyElem, transcript_alert, hp3, transcript_modifyElem, hp2]
    rfl
  · rw [valueOf_modifyElem_ne _ _ _ _ (by decide), valueOf_alert, hp3,
      valueOf_modifyElem_self, h3]
    rfl
  · rw [disabledOf_modifyElem_self]
    have : (p3.alert msg).getElementById "send-action-btn" = some (busyF btn) := by
      rw [getElementById_alert, hp3, getElementById_modifyElem, if_neg (by decide)]
      have : p2.getElementById "send-action-btn" = p1.getElementById "send-action-btn" := rfl
      rw [this, hp1, getElementById_modifyElem, if_pos rfl, hb]
      rfl
    rw [this]
    rfl
  · rw [labelOf_modifyElem_self]
    have : (p3.alert msg).getElementById "send-action-btn" = some (busyF btn) := by
      rw [getElementById_alert, hp3, getElementById_modifyElem, if_neg (by decide)]
      have : p2.getElementById "send-action-btn" = p1.getElementById "send-action-btn" := rfl
      rw [this, hp1, getElementById_modifyElem, if_pos rfl, hb]
      rfl
    rw [this]
    rfl
  · intro i hi1 hi2
    rw [getElementById_modifyElem, if_neg hi2, getElementById_alert, hp3,
      getElementById_modifyElem, if_neg hi1]
    have : p2.getElementById i = p1.getElementById i := rfl
    rw [this, hp1, getElementById_modifyElem, if_neg hi2]
  · intro d hd
    subst hd
    rw [alerts_modifyElem, alerts_alert, h5g, hmsg]
  · intro e he
    subst he
    rw [alerts_modifyElem, alerts_alert, h5g, hmsg]
  · rfl
  · rfl

/-- Witness for `c3_amended_send_action_failure` at the narrating page with
a pending action and a network failure. -/
theorem c3_amended_witness :
    (pageOf (sendActionClick narratingPage (.netFailure "fetch rejected"))).transcript
      = narratingPage.transcript ++ [⟨"用户", "调查房间"⟩] ∧
    valueOf (pageOf (sendActionClick narratingPage (.netFailure "fetch rejected"))) "user-action"
      = some "" :=
  ⟨(c3_amended_send_action_failure narratingPage { value := "调查房间" }
      { textContent := "发送" } "调查房间" rfl rfl (by decide) rfl rfl
      (.netFailure "fetch rejected") rfl).1,
   (c3_amended_send_action_failure narratingPage { value := "调查房间" }
      { textContent := "发送" } "调查房间" rfl rfl (by decide) rfl rfl
      (.netFailure "fetch rejected") rfl).2.1⟩

/-!  Claim C2: busy/disable discipline of request-triggering controls. -/

theorem disabledOf_modifyElem_pres (p : Page) (i j : String) (f : Elem → Elem)
    (h : ∀ e, (f e).disabled = e.disabled) :
    disabledOf (p.modifyElem j f) i = disabledOf p i := by
  by_cases hij : i = j
  · subst hij
    rw [disabledOf_modifyElem_self]
    unfold disabledOf
    cases p.getElementById i <;> simp [h]
  · exact disabledOf_modifyElem_ne p i j f hij

theorem disabledOf_modifyElemIf_pres (p : Page) (i j : String) (f : Elem → Elem)
    (h : ∀ e, (f e).disabled = e.disabled) :
    disabledOf (p.modifyElemIf j f) i = disabledOf p i := by
  rw [modifyElemIf_eq]
  split
  · exact disabledOf_modifyElem_pres p i j f h
  · rfl

/-- **C2** counterexample: the settings-form save violates the claimed
discipline.  Its synchronous phase dispatches from the untouched page — no
control is disabled and no busy label shown — and no element changes at any
point of the request. -/
theorem c2_counterexample_settings_no_busy_state :
    settingsPre templatePage =
      .ok (templatePage, ⟨"0.7", "0.9", "2048", true, "5", true⟩) ∧
    (pageOf (settingsSubmit templatePage (.netFailure "fetch rejected"))).elems
      = templatePage.elems :=
  ⟨rfl, rfl⟩

/-- **C2** amended: the busy-label discipline holds only for the
send-action, start-narrative, save-game, load-history, delete-history and
refresh-models buttons: each is disabled with its busy label in the
dispatched state and is re-enabled with its original label once the request
settles, for every outcome (for start-narrative the restoration on a
success response happens only because the `narrative-card` TypeError routes
the success callback into the catch handler; the others restore in a
finally callback).  The config-form save, settings-form save, reset and
upload controls never disable anything: settings and reset change no
element at all, and the config and upload handlers leave every element's
disabled flag untouched for every outcome. -/
theorem c2_amended_busy_discipline :
    -- settings-form save: the dispatched state is the untouched page, and no
    -- element ever changes across the request
    (settingsPre templatePage = .ok (templatePage, ⟨"0.7", "0.9", "2048", true, "5", true⟩)) ∧
    (∀ o, (pageOf (settingsSubmit templatePage o)).elems = templatePage.elems) ∧
    -- reset button: no element ever changes
    (∀ o, (pageOf (resetAppClick templatePage true o)).elems = templatePage.elems) ∧
    -- api-config form save: no control is ever disabled (the template has no
    -- submit button for this form at all; saving goes through the floating
    -- control)
    (∀ o, ∀ i, disabledOf (pageOf (apiConfigSubmit templatePage o)) i
      = disabledOf templatePage i) ∧
    -- upload form: the dispatch state only shows the processing card, and no
    -- control is ever disabled
    (novelUploadPre uploadPage = .ok (.request
      (uploadPage.modifyElem "processing-card" (fun e => { e with display := "flex" }))
      ⟨"novel.txt", ""⟩)) ∧
    (∀ o, ∀ i, disabledOf (pageOf (novelUploadSubmit uploadPage o)) i
      = disabledOf uploadPage i) ∧
    -- send-action: busy while in flight, restored for every outcome
    (∃ q, sendActionPre narratingPage = .ok (.request q "调查房间") ∧
      disabledOf q "send-action-btn" = some true ∧
      labelOf q "send-action-btn" = some "处理中...") ∧
    (∀ o, disabledOf (pageOf (sendActionClick narratingPage o)) "send-action-btn" = some false ∧
      labelOf (pageOf (sendActionClick narratingPage o)) "send-action-btn" = some "发送") ∧
    -- start-narrative: busy while in flight; restored for every outcome on the
    -- shipped template (on success only because the narrative-card TypeError
    -- sends the success callback into the catch handler)
    (disabledOf (startNarrativePre initStagePage) "start-narrative-btn" = some true ∧
      labelOf (startNarrativePre initStagePage) "start-narrative-btn" = some "初始化中...") ∧
    (∀ o, disabledOf (pageOf (startNarrativeClick initStagePage o)) "start-narrative-btn" = some false ∧
      labelOf (pageOf (startNarrativeClick initStagePage o)) "start-narrative-btn" = some "开始旅程") ∧
    -- save-game
    (disabledOf (saveGamePre narratingPage) "save-game-btn" = some true ∧
      labelOf (saveGamePre narratingPage) "save-game-btn" = some "保存中...") ∧
    (∀ o, disabledOf (pageOf (saveGameClick narratingPage o)) "save-game-btn" = some false ∧
      labelOf (pageOf (saveGameClick narratingPage o)) "save-game-btn" = some "保存游戏") ∧
    -- load history
    (∃ q, loadHistoryPre historyPage "saves/one.json" = .request q "saves/one.json" ∧
      disabledOf q "load-chat-btn" = some true ∧
      labelOf q "load-chat-btn" = some "加载中...") ∧
    (∀ o, disabledOf (pageOf (loadHistoryClick historyPage "saves/one.json" o)) "load-chat-btn" = some false ∧
      labelOf (pageOf (loadHistoryClick historyPage "saves/one.json" o)) "load-chat-btn" = some "加载") ∧
    -- delete history
    (∃ q, deleteHistoryPre historyPage "saves/one.json" true = .request q "saves/one.json" ∧
      disabledOf q "delete-chat-btn" = some true ∧
      labelOf q "delete-chat-btn" = some "删除中...") ∧
    (∀ o, disabledOf (pageOf (deleteHistoryClick historyPage "saves/one.json" true o)) "delete-chat-btn" = some false ∧
      labelOf (pageOf (deleteHistoryClick historyPage "saves/one.json" true o)) "delete-chat-btn" = some "删除") ∧
    -- refresh models
    (∃ q, refreshModelsPre templatePage = .ok (.request q "http://127.0.0.1:11434") ∧
      disabledOf q "refresh-models-btn" = some true ∧
      labelOf q "refresh-models-btn" = some "正在获取模型列表...") ∧
    (∀ o, disabledOf (pageOf (refreshModelsRun templatePage o)) "refresh-models-btn" = some false ∧
      labelOf (pageOf (refreshModelsRun templatePage o)) "refresh-models-btn" = some "刷新模型列表") := by
  refine ⟨rfl, ?_, ?_, ?_, rfl, ?_, ⟨_, rfl, rfl, rfl⟩, ?_, ⟨rfl, rfl⟩, ?_,
    ⟨rfl, rfl⟩, ?_, ⟨_, rfl, rfl, rfl⟩, ?_, ⟨_, rfl, rfl, rfl⟩, ?_,
    ⟨_, rfl, rfl, rfl⟩, ?_⟩
  · intro o
    rcases o with d | e
    · obtain ⟨s, er, ini, resp, mods⟩ := d
      cases s <;> rfl
    · rfl
  · intro o
    rcases o with d | e
    · obtain ⟨s, er, ini, resp, mods⟩ := d
      cases s <;> rfl
    · rfl
  · intro o i
    rcases o with d | e
    · obtain ⟨s, er, ini, resp, mods⟩ := d
      cases s
      · have heq : pageOf (apiConfigSubmit templatePage (.ok ⟨false, er, ini, resp, mods⟩))
            = templatePage.alert ("保存API配置失败: " ++ er) := rfl
        rw [heq, disabledOf_alert]
      · have heq : pageOf (apiConfigSubmit templatePage (.ok ⟨true, er, ini, resp, mods⟩))
            = ((templatePage.modifyElemIf "model-value-analysis"
                (fun e => { e with textContent := "llama3" })).modifyElemIf
                "model-value-writing"
                (fun e => { e with textContent := "llama3" })).alert "API配置已保存" := rfl
        rw [heq, disabledOf_alert,
          disabledOf_modifyElemIf_pres _ i "model-value-writing"
            (fun e => { e with textContent := "llama3" }) (fun e => rfl),
          disabledOf_modifyElemIf_pres templatePage i "model-value-analysis"
            (fun e => { e with textContent := "llama3" }) (fun e => rfl)]
    · have heq : pageOf (apiConfigSubmit templatePage (.netFailure e))
          = templatePage.alert ("保存API配置出错: " ++ e) := rfl
      rw [heq, disabledOf_alert]
  · intro o i
    rcases o with d | e
    · obtain ⟨s, er, ini, resp, mods⟩ := d
      cases s
      · have heq : pageOf (novelUploadSubmit uploadPage (.ok ⟨false, er, ini, resp, mods⟩))
            = ((uploadPage.modifyElem "processing-card"
                (fun e => { e with display := "flex" })).modifyElem "processing-card"
                (fun e => { e with display := "none" })).alert ("处理小说失败: " ++ er) := rfl
        rw [heq, disabledOf_alert,
          disabledOf_modifyElem_pres _ i "processing-card"
            (fun e => { e with display := "none" }) (fun e => rfl),
          disabledOf_modifyElem_pres uploadPage i "processing-card"
            (fun e => { e with display := "flex" }) (fun e => rfl)]
      · have heq : pageOf (novelUploadSubmit uploadPage (.ok ⟨true, er, ini, resp, mods⟩))
            = (((uploadPage.modifyElem "processing-card"
                (fun e => { e with display := "flex" })).modifyElem "processing-card"
                (fun e => { e with display := "none" })).modifyElem
                "initializing-narrative-card"
                (fun e => { e with display := "flex" })) := rfl
        rw [heq,
          disabledOf_modifyElem_pres _ i "initializing-narrative-card"
            (fun e => { e with display := "flex" }) (fun e => rfl),
          disabledOf_modifyElem_pres _ i "processing-card"
            (fun e => { e with display := "none" }) (fun e => rfl),
          disabledOf_modifyElem_pres uploadPage i "processing-card"
            (fun e => { e with display := "flex" }) (fun e => rfl)]
    · have heq : pageOf (novelUploadSubmit uploadPage (.netFailure e))
          = ((uploadPage.modifyElem "processing-card"
              (fun e => { e with display := "flex" })).modifyElem "processing-card"
              (fun e => { e with display := "none" })).alert ("上传小说出错: " ++ e) := rfl
      rw [heq, disabledOf_alert,
        disabledOf_modifyElem_pres _ i "processing-card"
          (fun e => { e with display := "none" }) (fun e => rfl),
        disabledOf_modifyElem_pres uploadPage i "processing-card"
          (fun e => { e with display := "flex" }) (fun e => rfl)]
  · intro o
    rcases o with d | e
    · obtain ⟨s, er, ini, resp, mods⟩ := d
      cases s <;> exact ⟨rfl, rfl⟩
    · exact ⟨rfl, rfl⟩
  · intro o
    rcases o with d | e
    · obtain ⟨s, er, ini, resp, mods⟩ := d
      cases s <;> exact ⟨rfl, rfl⟩
    · exact ⟨rfl, rfl⟩
  · intro o
    rcases o with d | e
    · obtain ⟨s, er, ini, resp, mods⟩ := d
      cases s <;> exact ⟨rfl, rfl⟩
    · exact ⟨rfl, rfl⟩
  · intro o
    rcases o with d | e
    · obtain ⟨s, er, ini, resp, mods⟩ := d
      cases s <;> exact ⟨rfl, rfl⟩
    · exact ⟨rfl, rfl⟩
  · intro o
    rcases o with d | e
    · obtain ⟨s, er, ini, resp, mods⟩ := d
      cases s <;> exact ⟨rfl, rfl⟩
    · exact ⟨rfl, rfl⟩
  · intro o
    rcases o with d | e
    · obtain ⟨s, er, ini, resp, mods⟩ := d
      cases s <;> exact ⟨rfl, rfl⟩
    · exact ⟨rfl, rfl⟩
